import Mathlib

/-!
Verification of the EELS background-subtraction plugin
(`nionswift_plugin/nion_eels_analysis/BackgroundSubtraction.py` and `PlugIns/EELS/UI.py`)
against its natural-language specification. The Python code is shallowly embedded: floats
become rationals, host objects (data items, computations, displays, the component registry)
become explicit record values, mutation becomes state passing, and Python exceptions become
`Except` errors.
-/

namespace EELS

attribute [local semireducible] Rat.mul Rat.add Rat.sub Rat.inv

/-- Dimensional calibration attached to spectral data (`nion.data.Calibration`): offset, scale
and units string; only the fields the plugin reads are modelled. -/
structure Calibration where
  offset : ℚ
  scale : ℚ
  units : String
deriving DecidableEq

/-- The default `Calibration()` used by the host when none is supplied. -/
def default_calibration : Calibration := { offset := 0, scale := 1, units := "" }

/-- Shallow embedding of `nion.data.DataAndMetadata.DataAndMetadata`: an n-dimensional array
(shape plus flattened data) with an intensity calibration, per-dimension calibrations, and the
count of datum (non-navigation) dimensions. -/
structure DataAndMetadata where
  shape : List Nat
  data : List ℚ
  intensity_calibration : Calibration
  dimensional_calibrations : List Calibration
  datum_dimension_count : Nat
deriving DecidableEq

namespace DataAndMetadata

/-- Number of navigation dimensions: the dimensions preceding the datum dimensions. -/
def navigation_dimension_count (x : DataAndMetadata) : Nat :=
  x.shape.length - x.datum_dimension_count

/-- Embeds the `is_datum_1d` property. -/
def is_datum_1d (x : DataAndMetadata) : Bool :=
  x.datum_dimension_count == 1

/-- Embeds the `is_navigable` property: at least one navigation dimension. -/
def is_navigable (x : DataAndMetadata) : Bool :=
  x.navigation_dimension_count != 0

/-- Embeds the `navigation_dimension_shape` property. -/
def navigation_dimension_shape (x : DataAndMetadata) : List Nat :=
  x.shape.take x.navigation_dimension_count

/-- Embeds the `navigation_dimensional_calibrations` property. -/
def navigation_dimensional_calibrations (x : DataAndMetadata) : List Calibration :=
  x.dimensional_calibrations.take x.navigation_dimension_count

/-- Embeds the `datum_dimensional_calibrations` property. -/
def datum_dimensional_calibrations (x : DataAndMetadata) : List Calibration :=
  x.dimensional_calibrations.drop x.navigation_dimension_count

end DataAndMetadata

/-- Embeds `DataAndMetadata.new_data_and_metadata(data, intensity_calibration=...,
dimensional_calibrations=...)`: wraps an array in metadata; a freshly wrapped array has only
datum dimensions. -/
def new_data_and_metadata (shape : List Nat) (data : List ℚ)
    (intensity_calibration : Calibration) (dimensional_calibrations : List Calibration) :
    DataAndMetadata :=
  { shape := shape, data := data, intensity_calibration := intensity_calibration,
    dimensional_calibrations := dimensional_calibrations,
    datum_dimension_count := shape.length }

/-- Embeds `numpy.zeros(shape)` as a flat array. -/
def zeros_data (shape : List Nat) : List ℚ :=
  List.replicate (shape.foldl (fun a n => a * n) 1) 0

/-- Embeds `numpy.zeros_like(data)`. -/
def zeros_like (data : List ℚ) : List ℚ :=
  List.replicate data.length 0

/-- Embeds `normalized_interval` from `BackgroundSubtraction.py` (floats modelled as
rationals): `min(interval), max(interval)` over the two components of the pair. -/
def normalized_interval (interval : ℚ × ℚ) : ℚ × ℚ :=
  (min interval.1 interval.2, max interval.1 interval.2)

/-- Modelled from the spec: `get_calibrated_interval_slice` lives in this repository's
`nion/eels_analysis/BackgroundModel.py`, which is not among the given sources. Per the spec,
interval graphics carry normalized (fractional) coordinates selecting a portion of the
spectrum, so this takes the sub-range of the 1-d spectrum corresponding to the fractional
interval, keeping the calibrations. -/
def get_calibrated_interval_slice (x : DataAndMetadata) (interval : ℚ × ℚ) : DataAndMetadata :=
  let n : ℚ := x.data.length
  let lo : Nat := (⌊interval.1 * n⌋).toNat
  let hi : Nat := (⌊interval.2 * n⌋).toNat
  { shape := [hi - lo], data := (x.data.drop lo).take (hi - lo),
    intensity_calibration := x.intensity_calibration,
    dimensional_calibrations := x.dimensional_calibrations,
    datum_dimension_count := 1 }

/-- Models the external `nion.data.Core.calibrated_subtract_spectrum` (the `nion.data` package
is outside this repository): subtracts the background model from the portion of the spectrum
it is calibrated against, elementwise over the background's length, keeping the background's
metadata. -/
def calibrated_subtract_spectrum (spectrum background : DataAndMetadata) : DataAndMetadata :=
  { shape := background.shape,
    data := (List.zip (spectrum.data.drop (spectrum.data.length - background.data.length))
      background.data).map (fun p => p.1 - p.2),
    intensity_calibration := background.intensity_calibration,
    dimensional_calibrations := background.dimensional_calibrations,
    datum_dimension_count := background.datum_dimension_count }

/-- Result dictionary returned by a background-model component's `fit_background`: the
mandatory `"background_model"` entry and the optional `"subtracted_spectrum"` entry. -/
structure FitResult where
  background_model : DataAndMetadata
  subtracted_spectrum : Option DataAndMetadata

/-- A background-model component as the plugin sees it through `nion.utils.Registry`: an
identifier, display titles, and the three algorithm entry points the handlers may invoke. The
algorithms themselves live outside the given sources and stay abstract functions; the
`subtract_background` field returns what the source reads as `integrate_result["subtracted"]`,
and `integrate_signal` returns `integrate_result["integrated"]`. -/
structure Component where
  background_model_id : String
  title : String
  package_title : String
  fit_background : DataAndMetadata → List (ℚ × ℚ) → (ℚ × ℚ) → FitResult
  subtract_background : DataAndMetadata → List (ℚ × ℚ) → DataAndMetadata
  integrate_signal : DataAndMetadata → Option DataAndMetadata → List (ℚ × ℚ) → (ℚ × ℚ) →
    DataAndMetadata

/-- One entry of the global component registry: a component and the set of type strings it was
registered under. -/
structure RegistryEntry where
  component : Component
  component_types : List String

/-- Embeds `Registry.get_components_by_type`: the components registered under the given type,
in registration order. -/
def get_components_by_type (registry : List RegistryEntry) (t : String) : List Component :=
  (registry.filter (fun e => e.component_types.contains t)).map (fun e => e.component)

/-- Instrumented embedding of the shared `for component in Registry.get_components_by_type(...)`
loop of the three `execute` methods: walk the components in order, invoke `invoke` on every
component whose `background_model_id` equals the requested one (a later match overwrites an
earlier result, as in the source), and record the position of each invoked component. -/
def background_model_loop_aux {α : Type} (background_model_id : String) (invoke : Component → α) :
    List Component → Nat → Option α × List Nat → Option α × List Nat
  | [], _, acc => acc
  | c :: cs, i, acc =>
    if c.background_model_id == background_model_id then
      background_model_loop_aux background_model_id invoke cs (i + 1)
        (some (invoke c), acc.2 ++ [i])
    else
      background_model_loop_aux background_model_id invoke cs (i + 1) acc

/-- The loop over a full component list, starting with no result and an empty log. -/
def background_model_loop {α : Type} (components : List Component) (background_model_id : String)
    (invoke : Component → α) : Option α × List Nat :=
  background_model_loop_aux background_model_id invoke components 0 (none, [])

/-- Positions, counting from `i`, of the components whose id matches. -/
def matching_indices_from (background_model_id : String) : List Component → Nat → List Nat
  | [], _ => []
  | c :: cs, i =>
    if c.background_model_id == background_model_id then
      i :: matching_indices_from background_model_id cs (i + 1)
    else
      matching_indices_from background_model_id cs (i + 1)

/-- The last component in the list whose id matches, if any; the loop's final value comes from
this component. -/
def last_matching (background_model_id : String) : List Component → Option Component
  | [] => none
  | c :: cs =>
    match last_matching background_model_id cs with
    | some c2 => some c2
    | none => if c.background_model_id == background_model_id then some c else none

/-- A graphic (`Facade.Graphic`, interval graphics here): identity, interval in fractional
coordinates, type string, and the settable `graphic_id` and `label`. -/
structure Graphic where
  id : Nat
  interval : ℚ × ℚ
  graphic_type : String
  graphic_id : String
  label : String
deriving DecidableEq

/-- A data item (`Facade.DataItem`): identity plus optional data-and-metadata. -/
structure DataItem where
  id : Nat
  xdata : Option DataAndMetadata
deriving DecidableEq

/-- The data item's `datum_dimension_count` property, forwarded to its data. -/
def DataItem.datum_dimension_count (d : DataItem) : Nat :=
  match d.xdata with
  | some x => x.datum_dimension_count
  | none => 0

/-- A data structure (`DataStructure.DataStructure`): its structure type and optional source
data item (by id). -/
structure DataStructure where
  structure_type : String
  source : Option Nat
deriving DecidableEq

/-- The host computation object as the handlers see it: the published (referenced) output
xdata, keyed by output name. -/
structure Computation where
  referenced_xdata : List (String × DataAndMetadata)
deriving DecidableEq

/-- Embeds `computation.set_referenced_xdata(name, xdata)`. -/
def Computation.set_referenced_xdata (c : Computation) (name : String) (x : DataAndMetadata) :
    Computation :=
  { referenced_xdata := (name, x) :: c.referenced_xdata.filter (fun p => p.1 != name) }

/-- Reads the published xdata for an output name. -/
def Computation.get_referenced_xdata (c : Computation) (name : String) :
    Option DataAndMetadata :=
  (c.referenced_xdata.find? (fun p => p.1 == name)).map (fun p => p.2)

/-- Exceptions the embedded methods can raise: Python `assert` failures, `ValueError` from
`min([])`, and missing-attribute or missing-argument errors. -/
inductive ExecError where
  | assertionError
  | valueError
  | attributeError
  | keyError
deriving DecidableEq

/-- Instance state of the `EELSFitBackground` handler: the host computation and the two private
buffers (`None` until `execute` assigns them). -/
structure EELSFitBackground where
  computation : Computation
  background_xdata : Option DataAndMetadata
  subtracted_xdata : Option DataAndMetadata
deriving DecidableEq

/-- Embeds `EELSFitBackground.__init__`. -/
def EELSFitBackground.init (computation : Computation) : EELSFitBackground :=
  { computation := computation, background_xdata := none, subtracted_xdata := none }

/-- Embeds `EELSFitBackground.execute`. The registry is passed explicitly (the source reads the
global `Registry`); alongside the new handler state the result carries the positions of the
registry components that were invoked. A raised exception propagates before the buffers are
assigned, so an error leaves the handler state unchanged. -/
def EELSFitBackground.execute (s : EELSFitBackground) (registry : List RegistryEntry)
    (eels_spectrum_data_item : DataItem) (background_model : DataStructure)
    (fit_interval_graphics : List Graphic) :
    Except ExecError (EELSFitBackground × List Nat) :=
  match eels_spectrum_data_item.xdata with
  | none => .error .assertionError
  | some spectrum_xdata =>
    if !spectrum_xdata.is_datum_1d then .error .assertionError
    else if spectrum_xdata.datum_dimensional_calibrations.head?.map Calibration.units
        ≠ some "eV" then .error .assertionError
    else
      let fit_intervals := fit_interval_graphics.map (fun g => normalized_interval g.interval)
      match (fit_intervals.map (fun p => p.1)).min? with
      | none => .error .valueError
      | some fit_minimum =>
        let signal_interval : ℚ × ℚ := (fit_minimum, 1)
        let signal_xdata := get_calibrated_interval_slice spectrum_xdata signal_interval
        let loop_result := background_model_loop
          (get_components_by_type registry "background-model")
          background_model.structure_type
          (fun component =>
            let fit_result :=
              component.fit_background spectrum_xdata fit_intervals signal_interval
            let background_xdata := fit_result.background_model
            let subtracted_xdata :=
              match fit_result.subtracted_spectrum with
              | some sub => sub
              | none => calibrated_subtract_spectrum spectrum_xdata background_xdata
            (background_xdata, subtracted_xdata))
        let background_xdata :=
          match loop_result.1 with
          | some r => r.1
          | none => new_data_and_metadata signal_xdata.shape (zeros_like signal_xdata.data)
              signal_xdata.intensity_calibration signal_xdata.dimensional_calibrations
        let subtracted_xdata :=
          match loop_result.1 with
          | some r => r.2
          | none => new_data_and_metadata signal_xdata.shape signal_xdata.data
              signal_xdata.intensity_calibration signal_xdata.dimensional_calibrations
        .ok ({ s with background_xdata := some background_xdata,
                      subtracted_xdata := some subtracted_xdata }, loop_result.2)

/-- Embeds `EELSFitBackground.commit`: asserts both buffers are set, then publishes them into
the computation's referenced output xdata. -/
def EELSFitBackground.commit (s : EELSFitBackground) : Except ExecError EELSFitBackground :=
  match s.background_xdata, s.subtracted_xdata with
  | some background_xdata, some subtracted_xdata =>
    let c1 := s.computation.set_referenced_xdata "background" background_xdata
    let c2 := c1.set_referenced_xdata "subtracted" subtracted_xdata
    .ok { s with computation := c2 }
  | _, _ => .error .assertionError

/-- Instance state of the `EELSSubtractBackground` handler; its buffer attribute only comes
into existence when `execute` assigns it (`None` models the missing attribute). -/
structure EELSSubtractBackground where
  computation : Computation
  subtracted_xdata : Option DataAndMetadata
deriving DecidableEq

/-- Embeds `EELSSubtractBackground.__init__`. -/
def EELSSubtractBackground.init (computation : Computation) : EELSSubtractBackground :=
  { computation := computation, subtracted_xdata := none }

/-- Embeds `EELSSubtractBackground.execute`; conventions as for
`EELSFitBackground.execute`. -/
def EELSSubtractBackground.execute (s : EELSSubtractBackground)
    (registry : List RegistryEntry) (spectrum_image_data_item : DataItem)
    (background_model : DataStructure) (fit_interval_graphics : List Graphic) :
    Except ExecError (EELSSubtractBackground × List Nat) :=
  match spectrum_image_data_item.xdata with
  | none => .error .assertionError
  | some spectrum_image_xdata =>
    if !spectrum_image_xdata.is_datum_1d then .error .assertionError
    else if !spectrum_image_xdata.is_navigable then .error .assertionError
    else if spectrum_image_xdata.datum_dimensional_calibrations.head?.map Calibration.units
        ≠ some "eV" then .error .assertionError
    else
      let fit_intervals := fit_interval_graphics.map (fun g => normalized_interval g.interval)
      let loop_result := background_model_loop
        (get_components_by_type registry "background-model")
        background_model.structure_type
        (fun component => component.subtract_background spectrum_image_xdata fit_intervals)
      let subtracted_xdata :=
        match loop_result.1 with
        | some r => r
        | none => new_data_and_metadata spectrum_image_xdata.navigation_dimension_shape
            (zeros_data spectrum_image_xdata.navigation_dimension_shape)
            default_calibration spectrum_image_xdata.navigation_dimensional_calibrations
      .ok ({ s with subtracted_xdata := some subtracted_xdata }, loop_result.2)

/-- Embeds `EELSSubtractBackground.commit`: publishes the buffer; reading the attribute before
`execute` ever assigned it raises `AttributeError`. -/
def EELSSubtractBackground.commit (s : EELSSubtractBackground) :
    Except ExecError EELSSubtractBackground :=
  match s.subtracted_xdata with
  | some subtracted_xdata =>
    .ok { s with computation :=
      s.computation.set_referenced_xdata "subtracted" subtracted_xdata }
  | none => .error .attributeError

/-- Instance state of the `EELSMapBackgroundSubtractedSignal` handler. -/
structure EELSMapBackgroundSubtractedSignal where
  computation : Computation
  mapped_xdata : Option DataAndMetadata
deriving DecidableEq

/-- Embeds `EELSMapBackgroundSubtractedSignal.__init__`. -/
def EELSMapBackgroundSubtractedSignal.init (computation : Computation) :
    EELSMapBackgroundSubtractedSignal :=
  { computation := computation, mapped_xdata := none }

/-- Embeds `EELSMapBackgroundSubtractedSignal.execute` (the source reads its arguments from
`kwargs`; `eels_spectrum_data_item` is optional via `kwargs.get`). Conventions as for
`EELSFitBackground.execute`. -/
def EELSMapBackgroundSubtractedSignal.execute (s : EELSMapBackgroundSubtractedSignal)
    (registry : List RegistryEntry) (spectrum_image_data_item : DataItem)
    (background_model : DataStructure) (fit_interval_graphics : List Graphic)
    (signal_interval_graphic : Graphic) (eels_spectrum_data_item : Option DataItem) :
    Except ExecError (EELSMapBackgroundSubtractedSignal × List Nat) :=
  match spectrum_image_data_item.xdata with
  | none => .error .assertionError
  | some spectrum_image_xdata =>
    if !spectrum_image_xdata.is_datum_1d then .error .assertionError
    else if !spectrum_image_xdata.is_navigable then .error .assertionError
    else if spectrum_image_xdata.datum_dimensional_calibrations.head?.map Calibration.units
        ≠ some "eV" then .error .assertionError
    else
      let spectrum_check : Except ExecError (Option DataAndMetadata) :=
        match eels_spectrum_data_item with
        | none => .ok none
        | some item =>
          match item.xdata with
          | none => .error .assertionError
          | some x =>
            if !x.is_datum_1d then .error .assertionError
            else if x.datum_dimensional_calibrations.head?.map Calibration.units
                ≠ some "eV" then .error .assertionError
            else .ok (some x)
      match spectrum_check with
      | .error e => .error e
      | .ok eels_spectrum_xdata =>
        let fit_intervals := fit_interval_graphics.map (fun g => normalized_interval g.interval)
        let signal_interval := normalized_interval signal_interval_graphic.interval
        let loop_result := background_model_loop
          (get_components_by_type registry "background-model")
          background_model.structure_type
          (fun component => component.integrate_signal spectrum_image_xdata
            eels_spectrum_xdata fit_intervals signal_interval)
        let mapped_xdata :=
          match loop_result.1 with
          | some r => r
          | none => new_data_and_metadata spectrum_image_xdata.navigation_dimension_shape
              (zeros_data spectrum_image_xdata.navigation_dimension_shape)
              default_calibration spectrum_image_xdata.navigation_dimensional_calibrations
        .ok ({ s with mapped_xdata := some mapped_xdata }, loop_result.2)

/-- Embeds `EELSMapBackgroundSubtractedSignal.commit`: publishes the buffer under `"map"`;
reading the attribute before `execute` ever assigned it raises `AttributeError`. -/
def EELSMapBackgroundSubtractedSignal.commit (s : EELSMapBackgroundSubtractedSignal) :
    Except ExecError EELSMapBackgroundSubtractedSignal :=
  match s.mapped_xdata with
  | some mapped_xdata =>
    .ok { s with computation := s.computation.set_referenced_xdata "map" mapped_xdata }
  | none => .error .attributeError

/-- The three handler classes, as values for the host's computation-type registry. -/
inductive HandlerKind where
  | fitBackground
  | mapBackgroundSubtractedSignal
  | subtractBackground
deriving DecidableEq

/-- Embeds `Symbolic.register_computation_type`: records the association in the host's
computation-type table. -/
def register_computation_type (table : List (String × HandlerKind))
    (computation_type_id : String) (kind : HandlerKind) : List (String × HandlerKind) :=
  table ++ [(computation_type_id, kind)]

/-- The computation-type registrations performed at module load (bottom of
`BackgroundSubtraction.py`), in source order, starting from an empty table. -/
def module_computation_type_registrations : List (String × HandlerKind) :=
  register_computation_type
    (register_computation_type
      (register_computation_type [] "eels.background_subtraction3" HandlerKind.fitBackground)
      "eels.mapping3" HandlerKind.mapBackgroundSubtractedSignal)
    "eels.subtract_background" HandlerKind.subtractBackground

/-- A handler instance of any of the three registered classes. -/
inductive HandlerState where
  | fit (s : EELSFitBackground)
  | sub (s : EELSSubtractBackground)
  | mapSig (s : EELSMapBackgroundSubtractedSignal)
deriving DecidableEq

/-- The keyword arguments the host passes to `execute`, named per the handlers' declared
`inputs` tables. -/
structure KwArgs where
  eels_spectrum_data_item : Option DataItem
  spectrum_image_data_item : Option DataItem
  background_model : Option DataStructure
  fit_interval_graphics : Option (List Graphic)
  signal_interval_graphic : Option Graphic
deriving DecidableEq

/-- Dispatches `execute` for a registered handler kind; a missing required argument raises, and
a state of the wrong class has no such method. -/
def HandlerKind.run_execute (kind : HandlerKind) (state : HandlerState)
    (registry : List RegistryEntry) (kwargs : KwArgs) :
    Except ExecError (HandlerState × List Nat) :=
  match kind, state with
  | .fitBackground, .fit s =>
    match kwargs.eels_spectrum_data_item, kwargs.background_model,
        kwargs.fit_interval_graphics with
    | some d, some bm, some gs =>
      (s.execute registry d bm gs).map (fun r => (HandlerState.fit r.1, r.2))
    | _, _, _ => .error .keyError
  | .subtractBackground, .sub s =>
    match kwargs.spectrum_image_data_item, kwargs.background_model,
        kwargs.fit_interval_graphics with
    | some d, some bm, some gs =>
      (s.execute registry d bm gs).map (fun r => (HandlerState.sub r.1, r.2))
    | _, _, _ => .error .keyError
  | .mapBackgroundSubtractedSignal, .mapSig s =>
    match kwargs.spectrum_image_data_item, kwargs.background_model,
        kwargs.fit_interval_graphics, kwargs.signal_interval_graphic with
    | some d, some bm, some gs, some sg =>
      (s.execute registry d bm gs sg kwargs.eels_spectrum_data_item).map
        (fun r => (HandlerState.mapSig r.1, r.2))
    | _, _, _, _ => .error .keyError
  | _, _ => .error .attributeError

/-- Dispatches `commit` for a registered handler kind. -/
def HandlerKind.run_commit (kind : HandlerKind) (state : HandlerState) :
    Except ExecError HandlerState :=
  match kind, state with
  | .fitBackground, .fit s => (s.commit).map HandlerState.fit
  | .subtractBackground, .sub s => (s.commit).map HandlerState.sub
  | .mapBackgroundSubtractedSignal, .mapSig s => (s.commit).map HandlerState.mapSig
  | _, _ => .error .attributeError

/-- A schema entity (`Schema.entity(entity_id, base, ...)`): its id and its base (parent)
entity's id. -/
structure SchemaEntity where
  entity_id : String
  parent : Option String
deriving DecidableEq

/-- Embeds the module-level `BackgroundModelEntity = Schema.entity("background_model", None,
None, ...)`. -/
def BackgroundModelEntity : SchemaEntity := { entity_id := "background_model", parent := none }

/-- One entity registration recorded by `DataStructure.DataStructure.register_entity`. -/
structure EntityRegistration where
  entity : SchemaEntity
  entity_name : String
  entity_package_name : String
deriving DecidableEq

/-- Embeds `component_registered`: when "background-model" is among the component types, create
an entity whose id is the component's `background_model_id` with parent
`BackgroundModelEntity` and register it with the data-structure entity table; otherwise do
nothing. -/
def component_registered (component : Component) (component_types : List String)
    (registered : List EntityRegistration) : List EntityRegistration :=
  if component_types.contains "background-model" then
    registered ++ [{ entity := { entity_id := component.background_model_id,
                                 parent := some BackgroundModelEntity.entity_id },
                     entity_name := component.title,
                     entity_package_name := component.package_title }]
  else
    registered

/-- A value wired as a computation input: a data item, a data structure, a single graphic, or
a list of graphics. -/
inductive InputValue where
  | dataItem (d : DataItem)
  | dataStructure (s : DataStructure)
  | graphicItem (g : Graphic)
  | graphicList (gs : List Graphic)
deriving DecidableEq

/-- A computation node of the document model: processing id, named inputs, named outputs. -/
structure DocComputation where
  processing_id : String
  inputs : List (String × InputValue)
  outputs : List (String × DataItem)
deriving DecidableEq

/-- Embeds `computation.get_input(name)`. -/
def DocComputation.get_input (c : DocComputation) (name : String) : Option InputValue :=
  (c.inputs.find? (fun p => p.1 == name)).map (fun p => p.2)

/-- Embeds `computation.get_output(name)`. -/
def DocComputation.get_output (c : DocComputation) (name : String) : Option DataItem :=
  (c.outputs.find? (fun p => p.1 == name)).map (fun p => p.2)

/-- The input under `name`, when it is bound to a data item. -/
def DocComputation.input_data_item (c : DocComputation) (name : String) : Option DataItem :=
  match c.get_input name with
  | some (.dataItem d) => some d
  | _ => none

/-- The input under `name`, when it is bound to a list of graphics. -/
def DocComputation.input_graphics (c : DocComputation) (name : String) :
    Option (List Graphic) :=
  match c.get_input name with
  | some (.graphicList gs) => some gs
  | _ => none

/-- The input under `name`, when it is bound to a data structure. -/
def DocComputation.input_structure (c : DocComputation) (name : String) :
    Option DataStructure :=
  match c.get_input name with
  | some (.dataStructure ds) => some ds
  | _ => none

/-- A display item: the data items shown in it and the currently selected graphics. -/
structure Display where
  data_items : List DataItem
  selected_graphics : List Graphic
deriving DecidableEq

/-- The document-model state the plugin functions touch: data items, data structures,
computations, the data-item dependency edges (source, target), and a counter supplying fresh
item identities. -/
structure DocumentModel where
  data_items : List DataItem
  data_structures : List DataStructure
  computations : List DocComputation
  source_edges : List (DataItem × DataItem)
  next_id : Nat
deriving DecidableEq

/-- Embeds `document_model.get_source_data_items(item)`. -/
def DocumentModel.get_source_data_items (m : DocumentModel) (d : DataItem) : List DataItem :=
  (m.source_edges.filter (fun e => e.2 == d)).map (fun e => e.1)

/-- Embeds `api.library.create_data_item()`: a fresh, empty data item. -/
def DocumentModel.create_data_item (m : DocumentModel) : DataItem × DocumentModel :=
  let item : DataItem := { id := m.next_id, xdata := none }
  (item, { m with data_items := m.data_items ++ [item], next_id := m.next_id + 1 })

/-- Embeds `api.library.create_data_item_from_data(data)`: a fresh data item wrapping the
array, with default calibrations. -/
def DocumentModel.create_data_item_from_data (m : DocumentModel) (shape : List Nat)
    (data : List ℚ) : DataItem × DocumentModel :=
  let x := new_data_and_metadata shape data default_calibration
    (List.replicate shape.length default_calibration)
  let item : DataItem := { id := m.next_id, xdata := some x }
  (item, { m with data_items := m.data_items ++ [item], next_id := m.next_id + 1 })

/-- Embeds `api.library.create_computation(processing_id, inputs, outputs)`. -/
def DocumentModel.create_computation (m : DocumentModel) (processing_id : String)
    (inputs : List (String × InputValue)) (outputs : List (String × DataItem)) :
    DocumentModel :=
  { m with computations := m.computations ++
      [{ processing_id := processing_id, inputs := inputs, outputs := outputs }] }

/-- A document window: target display, target data item, and the items shown so far through
`window.display_data_item`. -/
structure DocumentWindow where
  target_display : Option Display
  target_data_item : Option DataItem
  displayed_items : List DataItem
deriving DecidableEq

/-- The relabelling applied to each fit-interval graphic by
`add_background_subtraction_computation`: `graphic_id` becomes "background" and the label
"Background". -/
def relabel_background (g : Graphic) : Graphic :=
  { g with graphic_id := "background", label := "Background" }

/-- Embeds `add_background_subtraction_computation`: creates the two fresh output items,
appends the power-law background-model data structure (whose source is the background item),
creates the "eels.background_subtraction3" computation wiring the given data item, structure
and intervals to the two outputs, and sets every passed interval graphic's `graphic_id` to
"background" and its label to "Background". The graphics are Python objects shared between
caller and computation, so the computation holds the updated graphics, which are also
returned. Both outputs are appended to the display's data channels; the purely visual
display-layer styling and legend of the source's last lines have no observable effect on the
document model and are not modelled. -/
def add_background_subtraction_computation (m : DocumentModel) (display : Display)
    (data_item : DataItem) (intervals : List Graphic) :
    DocumentModel × List Graphic × Display :=
  let r1 := m.create_data_item
  let background := r1.1
  let r2 := r1.2.create_data_item
  let signal := r2.1
  let m2 := r2.2
  let background_model : DataStructure :=
    { structure_type := "power_law_fit_background_model", source := some background.id }
  let m3 := { m2 with data_structures := m2.data_structures ++ [background_model] }
  let updated_intervals := intervals.map relabel_background
  let m4 := m3.create_computation "eels.background_subtraction3"
    [("eels_spectrum_data_item", InputValue.dataItem data_item),
     ("background_model", InputValue.dataStructure background_model),
     ("fit_interval_graphics", InputValue.graphicList updated_intervals)]
    [("background", background), ("subtracted", signal)]
  let display2 := { display with data_items := display.data_items ++ [background, signal] }
  (m4, updated_intervals, display2)

/-- Embeds `subtract_background_from_signal`: acts only when the window has both a target
display and a target data item and at least one selected interval graphic; the updated
graphics and display are returned alongside the new model. -/
def subtract_background_from_signal (m : DocumentModel) (w : DocumentWindow) :
    DocumentModel × List Graphic × Option Display :=
  match w.target_display, w.target_data_item with
  | some target_display_item, some target_data_item =>
    let target_intervals := target_display_item.selected_graphics.filter
      (fun g => g.graphic_type == "interval-graphic")
    if target_intervals.isEmpty then (m, [], some target_display_item)
    else
      let r := add_background_subtraction_computation m target_display_item target_data_item
        target_intervals
      (r.1, r.2.1, some r.2.2)
  | _, _ => (m, [], w.target_display)

/-- Membership test `value in display_items` for the raw result of `get_input` or
`get_output` (Python: `None in items` is false, and a non-item value never equals a data
item). -/
def option_item_mem (d : Option DataItem) (items : List DataItem) : Bool :=
  match d with
  | some item => items.contains item
  | none => false

/-- The loop-body test of the `subtract_background` menu action: the computation has
processing id "eels.background_subtraction3" and both its `eels_spectrum_data_item` input and
its `subtracted` output lie among the given display items. Computations failing the membership
test are skipped; the source's `break` sits inside the membership branch, so iteration stops
at the first computation passing it. -/
def is_target_bs3_computation (display_items : List DataItem) (c : DocComputation) : Bool :=
  c.processing_id == "eels.background_subtraction3" &&
  option_item_mem (c.input_data_item "eels_spectrum_data_item") display_items &&
  option_item_mem (c.get_output "subtracted") display_items

/-- The first computation, in document order, satisfying `is_target_bs3_computation`. -/
def find_background_subtraction_computation (computations : List DocComputation)
    (display_items : List DataItem) : Option DocComputation :=
  computations.find? (is_target_bs3_computation display_items)

/-- Embeds the `subtract_background` menu action: look for the first
"eels.background_subtraction3" computation whose spectrum input and subtracted output are both
in the target display; when its spectrum has exactly one source data item that is navigable
with one datum dimension, create a fresh zero-filled item of the source's navigation shape and
a new "eels.subtract_background" computation reusing the found computation's graphics and
background model, then display the new item. A computation whose inputs are not of the wired
kinds makes the source raise, modelled as an error; a source item without xdata fails the
`assert`. An error leaves the document unchanged (nothing is created before the raise). -/
def subtract_background (m : DocumentModel) (w : DocumentWindow) :
    Except ExecError (DocumentModel × DocumentWindow) :=
  match w.target_display with
  | none => .ok (m, w)
  | some target_display =>
    match find_background_subtraction_computation m.computations target_display.data_items with
    | none => .ok (m, w)
    | some computation =>
      match computation.input_data_item "eels_spectrum_data_item",
          computation.input_graphics "fit_interval_graphics",
          computation.input_structure "background_model" with
      | some eels_spectrum_data_item, some fit_interval_graphics, some background_model =>
        let source_data_items := m.get_source_data_items eels_spectrum_data_item
        if source_data_items.length == 1 then
          match source_data_items.head? with
          | none => .ok (m, w)
          | some spectrum_image =>
            match spectrum_image.xdata with
            | none => .error .assertionError
            | some source_xdata =>
              if source_xdata.is_navigable && (spectrum_image.datum_dimension_count == 1) then
                let nav_shape := source_xdata.navigation_dimension_shape
                let r := m.create_data_item_from_data nav_shape (zeros_data nav_shape)
                let subtracted := r.1
                let m2 := r.2.create_computation "eels.subtract_background"
                  [("spectrum_image_data_item", InputValue.dataItem spectrum_image),
                   ("fit_interval_graphics", InputValue.graphicList fit_interval_graphics),
                   ("background_model", InputValue.dataStructure background_model)]
                  [("subtracted", subtracted)]
                .ok (m2, { w with displayed_items := w.displayed_items ++ [subtracted] })
              else .ok (m, w)
        else .ok (m, w)
      | _, _, _ => .error .attributeError

/-- The menu actions the EELS UI module (`PlugIns/EELS/UI.py`) can register; `filterElement`
carries the (fit, signal) energy ranges handed to `filter_element`. -/
inductive MenuAction where
  | subtractLinearBackground
  | subtractBackgroundSignal
  | extractSignal
  | showColorChannels
  | filterChannel
  | filterElement (fit_range : ℚ × ℚ) (signal_range : ℚ × ℚ)
deriving DecidableEq

/-- Embeds `processing_menu.add_menu_item(label, callback)`. -/
def add_menu_item (menu : List (String × MenuAction)) (label : String) (action : MenuAction) :
    List (String × MenuAction) :=
  menu ++ [(label, action)]

/-- Embeds `build_menus`: the seven `add_menu_item` calls of `UI.py`, in source order. -/
def build_menus (processing_menu : List (String × MenuAction)) : List (String × MenuAction) :=
  add_menu_item
    (add_menu_item
      (add_menu_item
        (add_menu_item
          (add_menu_item
            (add_menu_item
              (add_menu_item processing_menu
                "Subtract Linear Background" MenuAction.subtractLinearBackground)
              "Subtract Background Signal" MenuAction.subtractBackgroundSignal)
            "Extract Signal" MenuAction.extractSignal)
          "Show Color Channels" MenuAction.showColorChannels)
        "Filter Channel" MenuAction.filterChannel)
      "Elemental Map (Si K)" (MenuAction.filterElement (1700, 1800) (1839, 2039)))
    "Elemental Map (Ga L)" (MenuAction.filterElement (1100, 1200) (1220, 1420))

/-- A registered menu handler; the UI module only ever registers `build_menus`. -/
inductive MenuHandler where
  | buildMenus
deriving DecidableEq

/-- Embeds the registration at the bottom of `UI.py`: `build_menus` is registered as a menu
handler exactly when the host imports succeeded and an application object exists (the `and`
short-circuits, so a failed host import never touches the application object). -/
def ui_module_menu_handler_registration (host_import_ok : Bool) (app_is_running : Bool) :
    List MenuHandler :=
  if host_import_ok && app_is_running then [MenuHandler.buildMenus] else []

/-- Sample electron-volt calibration, for concrete evaluations. -/
def cal_eV : Calibration := { offset := 0, scale := 1, units := "eV" }

/-- A small concrete EELS spectrum: four channels calibrated in eV. -/
def sample_spectrum_xdata : DataAndMetadata :=
  { shape := [4], data := [1, 2, 3, 4], intensity_calibration := default_calibration,
    dimensional_calibrations := [cal_eV], datum_dimension_count := 1 }

/-- A small concrete spectrum image: two spectra of four channels. -/
def sample_si_xdata : DataAndMetadata :=
  { shape := [2, 4], data := [1, 2, 3, 4, 5, 6, 7, 8],
    intensity_calibration := default_calibration,
    dimensional_calibrations := [default_calibration, cal_eV], datum_dimension_count := 1 }

/-- The spectrum as a data item. -/
def sample_spectrum_item : DataItem := { id := 1, xdata := some sample_spectrum_xdata }

/-- The spectrum image as a data item. -/
def sample_si_item : DataItem := { id := 0, xdata := some sample_si_xdata }

/-- A concrete fit-interval graphic. -/
def sample_graphic : Graphic :=
  { id := 10, interval := (mkRat 1 4, mkRat 1 2), graphic_type := "interval-graphic",
    graphic_id := "", label := "" }

/-- A concrete signal-interval graphic. -/
def sample_signal_graphic : Graphic :=
  { id := 11, interval := (mkRat 5 8, mkRat 3 4), graphic_type := "interval-graphic",
    graphic_id := "", label := "" }

/-- A concrete background-model data structure. -/
def sample_background_model : DataStructure :=
  { structure_type := "power_law_fit_background_model", source := none }

/-- A concrete registered background-model component whose id matches
`sample_background_model`. -/
def sample_component : Component :=
  { background_model_id := "power_law_fit_background_model", title := "Power Law",
    package_title := "EELS Analysis",
    fit_background := fun x _ _ => { background_model := x, subtracted_spectrum := none },
    subtract_background := fun x _ => x,
    integrate_signal := fun x _ _ _ => x }

/-- A component registered under a different background-model id. -/
def other_component : Component :=
  { background_model_id := "linear_fit_background_model", title := "Linear",
    package_title := "EELS Analysis",
    fit_background := fun x _ _ => { background_model := x, subtracted_spectrum := none },
    subtract_background := fun x _ => x,
    integrate_signal := fun x _ _ _ => x }

/-- A registry holding a non-matching and a matching background-model component. -/
def sample_registry : List RegistryEntry :=
  [{ component := other_component, component_types := ["background-model"] },
   { component := sample_component, component_types := ["background-model"] }]

/-- A registry whose only background-model component does not match
`sample_background_model`. -/
def mismatch_registry : List RegistryEntry :=
  [{ component := other_component, component_types := ["background-model"] }]

/-- A concrete host computation with nothing published yet. -/
def sample_computation : Computation := { referenced_xdata := [] }

/-- Output items of the sample background-subtraction computation. -/
def sample_background_item : DataItem := { id := 2, xdata := none }

/-- The subtracted output item of the sample computation. -/
def sample_subtracted_item : DataItem := { id := 3, xdata := none }

/-- A concrete "eels.background_subtraction3" computation over the sample objects. -/
def sample_bs3_computation : DocComputation :=
  { processing_id := "eels.background_subtraction3",
    inputs := [("eels_spectrum_data_item", InputValue.dataItem sample_spectrum_item),
               ("background_model", InputValue.dataStructure sample_background_model),
               ("fit_interval_graphics", InputValue.graphicList [sample_graphic])],
    outputs := [("background", sample_background_item),
                ("subtracted", sample_subtracted_item)] }

/-- A display showing the sample spectrum and the subtracted output. -/
def sample_display : Display :=
  { data_items := [sample_spectrum_item, sample_subtracted_item],
    selected_graphics := [sample_graphic] }

/-- A concrete document model in which the sample spectrum was picked from the sample
spectrum image. -/
def sample_document_model : DocumentModel :=
  { data_items := [sample_si_item, sample_spectrum_item, sample_background_item,
      sample_subtracted_item],
    data_structures := [sample_background_model],
    computations := [sample_bs3_computation],
    source_edges := [(sample_si_item, sample_spectrum_item)],
    next_id := 4 }

/-- A concrete window targeting the sample display and spectrum. -/
def sample_window : DocumentWindow :=
  { target_display := some sample_display, target_data_item := some sample_spectrum_item,
    displayed_items := [] }

/-- A freshly initialised `EELSFitBackground` handler over the sample computation. -/
def fit_state0 : EELSFitBackground := EELSFitBackground.init sample_computation

/-- A freshly initialised `EELSSubtractBackground` handler. -/
def sub_state0 : EELSSubtractBackground := EELSSubtractBackground.init sample_computation

/-- A freshly initialised `EELSMapBackgroundSubtractedSignal` handler. -/
def map_state0 : EELSMapBackgroundSubtractedSignal :=
  EELSMapBackgroundSubtractedSignal.init sample_computation

/-- The default (no matching component) background buffer for the sample spectrum: zeros over
the signal slice. -/
def fit_background_default_xdata : DataAndMetadata :=
  { shape := [3], data := [0, 0, 0], intensity_calibration := default_calibration,
    dimensional_calibrations := [cal_eV], datum_dimension_count := 1 }

/-- The default subtracted buffer for the sample spectrum: the signal slice itself. -/
def fit_subtracted_default_xdata : DataAndMetadata :=
  { shape := [3], data := [2, 3, 4], intensity_calibration := default_calibration,
    dimensional_calibrations := [cal_eV], datum_dimension_count := 1 }

/-- The fit handler after executing over `mismatch_registry` on the sample inputs. -/
def fit_state1 : EELSFitBackground :=
  { computation := sample_computation,
    background_xdata := some fit_background_default_xdata,
    subtracted_xdata := some fit_subtracted_default_xdata }

/-- The fit handler after the subsequent commit. -/
def fit_state2 : EELSFitBackground :=
  { computation := { referenced_xdata :=
      [("subtracted", fit_subtracted_default_xdata),
       ("background", fit_background_default_xdata)] },
    background_xdata := some fit_background_default_xdata,
    subtracted_xdata := some fit_subtracted_default_xdata }

/-- The default navigation-shaped zero buffer for the sample spectrum image. -/
def nav_zero_xdata : DataAndMetadata :=
  { shape := [2], data := [0, 0], intensity_calibration := default_calibration,
    dimensional_calibrations := [default_calibration], datum_dimension_count := 1 }

/-- The subtract handler after executing over `mismatch_registry`. -/
def sub_state1 : EELSSubtractBackground :=
  { computation := sample_computation, subtracted_xdata := some nav_zero_xdata }

/-- The subtract handler after the subsequent commit. -/
def sub_state2 : EELSSubtractBackground :=
  { computation := { referenced_xdata := [("subtracted", nav_zero_xdata)] },
    subtracted_xdata := some nav_zero_xdata }

/-- The map handler after executing over `mismatch_registry`. -/
def map_state1 : EELSMapBackgroundSubtractedSignal :=
  { computation := sample_computation, mapped_xdata := some nav_zero_xdata }

/-- The map handler after the subsequent commit. -/
def map_state2 : EELSMapBackgroundSubtractedSignal :=
  { computation := { referenced_xdata := [("map", nav_zero_xdata)] },
    mapped_xdata := some nav_zero_xdata }

/-- The fit handler after executing over `sample_registry` (whose second component matches):
the matching component returns the spectrum itself as background model. -/
def fit_state_matched : EELSFitBackground :=
  { computation := sample_computation,
    background_xdata := some sample_spectrum_xdata,
    subtracted_xdata := some
      { shape := [4], data := [0, 0, 0, 0], intensity_calibration := default_calibration,
        dimensional_calibrations := [cal_eV], datum_dimension_count := 1 } }

/-- A data item with no xdata. -/
def no_xdata_item : DataItem := { id := 7, xdata := none }

/-- Two-dimensional datum data (not datum-1d). -/
def bad_2d_xdata : DataAndMetadata :=
  { shape := [2, 2], data := [1, 2, 3, 4], intensity_calibration := default_calibration,
    dimensional_calibrations := [default_calibration, default_calibration],
    datum_dimension_count := 2 }

/-- A data item holding the two-dimensional datum data. -/
def bad_2d_item : DataItem := { id := 8, xdata := some bad_2d_xdata }

/-- One-dimensional datum data whose calibration is not in eV. -/
def bad_units_xdata : DataAndMetadata :=
  { shape := [4], data := [1, 2, 3, 4], intensity_calibration := default_calibration,
    dimensional_calibrations := [default_calibration], datum_dimension_count := 1 }

/-- A data item holding the badly calibrated data. -/
def bad_units_item : DataItem := { id := 9, xdata := some bad_units_xdata }

/-- Well-formedness of a background-subtraction computation's inputs: the three inputs are
wired with values of the expected kinds, as `add_background_subtraction_computation` creates
them. -/
def bs3_inputs_well_formed (c : DocComputation) : Prop :=
  (c.input_data_item "eels_spectrum_data_item").isSome = true ∧
  (c.input_graphics "fit_interval_graphics").isSome = true ∧
  (c.input_structure "background_model").isSome = true

/-- The sample graphic after `add_background_subtraction_computation` relabels it. -/
def sample_graphic_bg : Graphic :=
  { sample_graphic with graphic_id := "background", label := "Background" }

/-- The fresh zero-filled item the `subtract_background` menu action creates over the sample
document (navigation shape of the sample spectrum image). -/
def sample_new_subtracted_item : DataItem := { id := 4, xdata := some nav_zero_xdata }

/-- The "eels.subtract_background" computation the menu action creates over the sample
document. -/
def sample_subtract_comp : DocComputation :=
  { processing_id := "eels.subtract_background",
    inputs := [("spectrum_image_data_item", InputValue.dataItem sample_si_item),
               ("fit_interval_graphics", InputValue.graphicList [sample_graphic]),
               ("background_model", InputValue.dataStructure sample_background_model)],
    outputs := [("subtracted", sample_new_subtracted_item)] }

/-- The sample document model after the `subtract_background` menu action. -/
def sample_model_after_subtract : DocumentModel :=
  { data_items := [sample_si_item, sample_spectrum_item, sample_background_item,
      sample_subtracted_item, sample_new_subtracted_item],
    data_structures := [sample_background_model],
    computations := [sample_bs3_computation, sample_subtract_comp],
    source_edges := [(sample_si_item, sample_spectrum_item)],
    next_id := 5 }

/-- The sample window after the `subtract_background` menu action displays the new item. -/
def sample_window_after_subtract : DocumentWindow :=
  { sample_window with displayed_items := [sample_new_subtracted_item] }

/-- The fresh data item the `subtract_background` menu action creates: zeros over the
navigation shape of the source spectrum image. -/
def fresh_zero_item (m : DocumentModel) (x : DataAndMetadata) : DataItem :=
  (m.create_data_item_from_data x.navigation_dimension_shape
    (zeros_data x.navigation_dimension_shape)).1

/-- The registry-loop log ignores the invoked values: it is the list of matching positions. -/
theorem background_model_loop_aux_log {α : Type} (bmid : String) (invoke : Component → α) :
    ∀ (cs : List Component) (i : Nat) (acc : Option α × List Nat),
      (background_model_loop_aux bmid invoke cs i acc).2
        = acc.2 ++ matching_indices_from bmid cs i := by
  intro cs
  induction cs with
  | nil => intro i acc; simp [background_model_loop_aux, matching_indices_from]
  | cons c cs ih =>
    intro i acc
    cases hb : c.background_model_id == bmid with
    | true =>
      rw [background_model_loop_aux, if_pos hb, matching_indices_from, if_pos hb, ih]
      simp
    | false =>
      have hb' : ¬ ((c.background_model_id == bmid) = true) := by simp [hb]
      rw [background_model_loop_aux, if_neg hb', matching_indices_from, if_neg hb', ih]

/-- The registry-loop value is the invoked result of the last matching component. -/
theorem background_model_loop_aux_value {α : Type} (bmid : String) (invoke : Component → α) :
    ∀ (cs : List Component) (i : Nat) (acc : Option α × List Nat),
      (background_model_loop_aux bmid invoke cs i acc).1
        = match last_matching bmid cs with
          | some c => some (invoke c)
          | none => acc.1 := by
  intro cs
  induction cs with
  | nil => intro i acc; simp [background_model_loop_aux, last_matching]
  | cons c cs ih =>
    intro i acc
    cases hb : c.background_model_id == bmid with
    | true =>
      have he : c.background_model_id = bmid := beq_iff_eq.mp hb
      rw [background_model_loop_aux, if_pos hb, ih, last_matching]
      cases hlm : last_matching bmid cs with
      | some c2 => simp
      | none => simp [he]
    | false =>
      have hb' : ¬ ((c.background_model_id == bmid) = true) := by simp [hb]
      have he : c.background_model_id ≠ bmid := by simpa using hb
      rw [background_model_loop_aux, if_neg hb', ih, last_matching]
      cases hlm : last_matching bmid cs with
      | some c2 => simp
      | none => simp [he]

/-- The full loop's log. -/
theorem background_model_loop_log {α : Type} (comps : List Component) (bmid : String)
    (invoke : Component → α) :
    (background_model_loop comps bmid invoke).2 = matching_indices_from bmid comps 0 := by
  simpa [background_model_loop] using background_model_loop_aux_log bmid invoke comps 0 (none, [])

/-- The full loop's value. -/
theorem background_model_loop_value {α : Type} (comps : List Component) (bmid : String)
    (invoke : Component → α) :
    (background_model_loop comps bmid invoke).1 = (last_matching bmid comps).map invoke := by
  have h := background_model_loop_aux_value bmid invoke comps 0 (none, [])
  simp only [background_model_loop]
  rw [h]
  cases last_matching bmid comps <;> simp

/-- When no component's id matches, `last_matching` finds nothing. -/
theorem last_matching_eq_none (bmid : String) (cs : List Component)
    (h : ∀ c ∈ cs, c.background_model_id ≠ bmid) : last_matching bmid cs = none := by
  induction cs with
  | nil => simp [last_matching]
  | cons c cs ih =>
    have hc : (c.background_model_id == bmid) = false := by
      simp [h c (List.mem_cons_self c cs)]
    rw [last_matching, ih (fun x hx => h x (List.mem_cons_of_mem c hx))]
    simp [hc]

/-- Every logged position is at least the starting index. -/
theorem matching_indices_from_lb (bmid : String) :
    ∀ (cs : List Component) (i k : Nat), k ∈ matching_indices_from bmid cs i → i ≤ k := by
  intro cs
  induction cs with
  | nil => intro i k hk; simp [matching_indices_from] at hk
  | cons c cs ih =>
    intro i k hk
    cases hb : c.background_model_id == bmid with
    | true =>
      rw [matching_indices_from, if_pos hb] at hk
      rcases List.mem_cons.mp hk with h | h
      · omega
      · have := ih (i + 1) k h; omega
    | false =>
      rw [matching_indices_from, if_neg (by simp [hb])] at hk
      have := ih (i + 1) k hk; omega

/-- A position is logged exactly when the component at that position matches. -/
theorem matching_indices_from_mem (bmid : String) :
    ∀ (cs : List Component) (i j : Nat),
      ((i + j) ∈ matching_indices_from bmid cs i ↔
        ∃ c, cs.get? j = some c ∧ c.background_model_id = bmid) := by
  intro cs
  induction cs with
  | nil => intro i j; simp [matching_indices_from]
  | cons c cs ih =>
    intro i j
    cases j with
    | zero =>
      cases hb : c.background_model_id == bmid with
      | true =>
        rw [matching_indices_from, if_pos hb]
        simp only [Nat.add_zero, List.get?_cons_zero]
        constructor
        · intro _; exact ⟨c, rfl, by simpa using hb⟩
        · intro _; exact List.mem_cons_self i _
      | false =>
        rw [matching_indices_from, if_neg (by simp [hb])]
        simp only [Nat.add_zero, List.get?_cons_zero]
        constructor
        · intro hmem
          have := matching_indices_from_lb bmid cs (i + 1) i hmem
          omega
        · rintro ⟨c', hc', hcc⟩
          cases hc'
          simp [hcc] at hb
    | succ k =>
      have hrw : i + (k + 1) = (i + 1) + k := by omega
      cases hb : c.background_model_id == bmid with
      | true =>
        rw [matching_indices_from, if_pos hb]
        rw [List.mem_cons, hrw]
        simp only [List.get?_cons_succ]
        rw [ih (i + 1) k]
        constructor
        · rintro (h | h)
          · omega
          · exact h
        · intro h; exact Or.inr h
      | false =>
        rw [matching_indices_from, if_neg (by simp [hb])]
        rw [hrw]
        simp only [List.get?_cons_succ]
        exact ih (i + 1) k

/-- Publishing under a name makes that name read back the published value. -/
theorem Computation.get_set_same (c : Computation) (name : String) (x : DataAndMetadata) :
    (c.set_referenced_xdata name x).get_referenced_xdata name = some x := by
  simp [Computation.set_referenced_xdata, Computation.get_referenced_xdata]

/-- Searching a list with the entries under `name` removed, for a different name, is the same
as searching the original list. -/
theorem find_filter_ne (name name' : String) (h : name' ≠ name)
    (l : List (String × DataAndMetadata)) :
    (l.filter (fun p => p.1 != name)).find? (fun p => p.1 == name')
      = l.find? (fun p => p.1 == name') := by
  induction l with
  | nil => simp
  | cons p l ih =>
    by_cases h1 : p.1 = name'
    · have hkeep : (p.1 != name) = true := by rw [h1, bne_iff_ne]; exact h
      have hfind : (p.1 == name') = true := by rw [h1, beq_iff_eq]
      simp [List.filter_cons, List.find?_cons, hkeep, hfind]
    · have hfind : (p.1 == name') = false := by simp [h1]
      by_cases h2 : p.1 = name
      · have hdrop : (p.1 != name) = false := by simp [h2]
        simp [List.filter_cons, List.find?_cons, hdrop, hfind, ih]
      · have hkeep : (p.1 != name) = true := by rw [bne_iff_ne]; exact h2
        simp [List.filter_cons, List.find?_cons, hkeep, hfind, ih]

/-- Publishing under a name leaves every other name's published value unchanged. -/
theorem Computation.get_set_other (c : Computation) (name name' : String) (x : DataAndMetadata)
    (h : name' ≠ name) :
    (c.set_referenced_xdata name x).get_referenced_xdata name' = c.get_referenced_xdata name' := by
  have hfind : (name == name') = false := by
    simp
    intro he
    exact h he.symm
  simp only [Computation.set_referenced_xdata, Computation.get_referenced_xdata,
    List.find?_cons, hfind]
  rw [find_filter_ne name name' h]

/-- A successful `EELSFitBackground.execute` leaves the handler's computation untouched,
assigns both private buffers, and logs exactly the matching registry positions. -/
theorem fit_execute_ok_shape {s : EELSFitBackground}
    {registry : List RegistryEntry} {d : DataItem} {bm : DataStructure} {gs : List Graphic}
    {s' : EELSFitBackground} {log : List Nat}
    (h : s.execute registry d bm gs = .ok (s', log)) :
    s'.computation = s.computation ∧
    (∃ bg, s'.background_xdata = some bg) ∧
    (∃ sub, s'.subtracted_xdata = some sub) ∧
    log = matching_indices_from bm.structure_type
      (get_components_by_type registry "background-model") 0 := by
  simp only [EELSFitBackground.execute] at h
  split at h
  · cases h
  · split at h
    · cases h
    · split at h
      · cases h
      · split at h
        · cases h
        · simp only [Except.ok.injEq, Prod.mk.injEq] at h
          obtain ⟨h1, h2⟩ := h
          subst h1
          subst h2
          exact ⟨rfl, ⟨_, rfl⟩, ⟨_, rfl⟩, background_model_loop_log _ _ _⟩

/-- A successful `EELSSubtractBackground.execute` leaves the handler's computation untouched,
assigns the private buffer, and logs exactly the matching registry positions. -/
theorem sub_execute_ok_shape {s : EELSSubtractBackground}
    {registry : List RegistryEntry} {d : DataItem} {bm : DataStructure} {gs : List Graphic}
    {s' : EELSSubtractBackground} {log : List Nat}
    (h : s.execute registry d bm gs = .ok (s', log)) :
    s'.computation = s.computation ∧
    (∃ sub, s'.subtracted_xdata = some sub) ∧
    log = matching_indices_from bm.structure_type
      (get_components_by_type registry "background-model") 0 := by
  simp only [EELSSubtractBackground.execute] at h
  split at h
  · cases h
  · split at h
    · cases h
    · split at h
      · cases h
      · split at h
        · cases h
        · simp only [Except.ok.injEq, Prod.mk.injEq] at h
          obtain ⟨h1, h2⟩ := h
          subst h1
          subst h2
          exact ⟨rfl, ⟨_, rfl⟩, background_model_loop_log _ _ _⟩

/-- A successful `EELSMapBackgroundSubtractedSignal.execute` leaves the handler's computation
untouched, assigns the private buffer, and logs exactly the matching registry positions. -/
theorem map_execute_ok_shape
    {s : EELSMapBackgroundSubtractedSignal} {registry : List RegistryEntry} {d : DataItem}
    {bm : DataStructure} {gs : List Graphic} {sg : Graphic} {esd : Option DataItem}
    {s' : EELSMapBackgroundSubtractedSignal} {log : List Nat}
    (h : s.execute registry d bm gs sg esd = .ok (s', log)) :
    s'.computation = s.computation ∧
    (∃ mapped, s'.mapped_xdata = some mapped) ∧
    log = matching_indices_from bm.structure_type
      (get_components_by_type registry "background-model") 0 := by
  simp only [EELSMapBackgroundSubtractedSignal.execute] at h
  split at h
  · cases h
  · split at h
    · cases h
    · split at h
      · cases h
      · split at h
        · cases h
        · split at h
          · cases h
          · simp only [Except.ok.injEq, Prod.mk.injEq] at h
            obtain ⟨h1, h2⟩ := h
            subst h1
            subst h2
            exact ⟨rfl, ⟨_, rfl⟩, background_model_loop_log _ _ _⟩

/-- When no registered background-model component matches, a successful
`EELSFitBackground.execute` buffers the zero background and the identity subtraction over the
signal slice. -/
theorem fit_execute_no_match {s : EELSFitBackground}
    {registry : List RegistryEntry} {d : DataItem} {bm : DataStructure} {gs : List Graphic}
    {s' : EELSFitBackground} {log : List Nat}
    (hnm : ∀ c ∈ get_components_by_type registry "background-model",
      c.background_model_id ≠ bm.structure_type)
    (h : s.execute registry d bm gs = .ok (s', log)) :
    ∃ spectrum_xdata fit_minimum,
      d.xdata = some spectrum_xdata ∧
      ((gs.map (fun g => normalized_interval g.interval)).map (fun p => p.1)).min?
        = some fit_minimum ∧
      s'.background_xdata = some (new_data_and_metadata
        (get_calibrated_interval_slice spectrum_xdata (fit_minimum, 1)).shape
        (zeros_like (get_calibrated_interval_slice spectrum_xdata (fit_minimum, 1)).data)
        (get_calibrated_interval_slice spectrum_xdata (fit_minimum, 1)).intensity_calibration
        (get_calibrated_interval_slice spectrum_xdata
          (fit_minimum, 1)).dimensional_calibrations) ∧
      s'.subtracted_xdata = some (new_data_and_metadata
        (get_calibrated_interval_slice spectrum_xdata (fit_minimum, 1)).shape
        (get_calibrated_interval_slice spectrum_xdata (fit_minimum, 1)).data
        (get_calibrated_interval_slice spectrum_xdata (fit_minimum, 1)).intensity_calibration
        (get_calibrated_interval_slice spectrum_xdata
          (fit_minimum, 1)).dimensional_calibrations) := by
  cases hx : d.xdata with
  | none => simp only [EELSFitBackground.execute, hx] at h; cases h
  | some spectrum_xdata =>
    simp only [EELSFitBackground.execute, hx] at h
    refine ⟨spectrum_xdata, ?_⟩
    split at h
    · cases h
    · split at h
      · cases h
      · split at h
        · cases h
        · rename_i fit_minimum hmin
          simp only [background_model_loop_value,
            last_matching_eq_none bm.structure_type
              (get_components_by_type registry "background-model") hnm,
            Option.map_none'] at h
          simp only [Except.ok.injEq, Prod.mk.injEq] at h
          obtain ⟨h1, h2⟩ := h
          subst h1
          exact ⟨fit_minimum, rfl, hmin, rfl, rfl⟩

/-- When no registered background-model component matches, a successful
`EELSSubtractBackground.execute` buffers zeros over the navigation shape with the navigation
calibrations. -/
theorem sub_execute_no_match {s : EELSSubtractBackground}
    {registry : List RegistryEntry} {d : DataItem} {bm : DataStructure} {gs : List Graphic}
    {s' : EELSSubtractBackground} {log : List Nat}
    (hnm : ∀ c ∈ get_components_by_type registry "background-model",
      c.background_model_id ≠ bm.structure_type)
    (h : s.execute registry d bm gs = .ok (s', log)) :
    ∃ spectrum_image_xdata,
      d.xdata = some spectrum_image_xdata ∧
      s'.subtracted_xdata = some (new_data_and_metadata
        spectrum_image_xdata.navigation_dimension_shape
        (zeros_data spectrum_image_xdata.navigation_dimension_shape)
        default_calibration
        spectrum_image_xdata.navigation_dimensional_calibrations) := by
  cases hx : d.xdata with
  | none => simp only [EELSSubtractBackground.execute, hx] at h; cases h
  | some spectrum_image_xdata =>
    simp only [EELSSubtractBackground.execute, hx] at h
    refine ⟨spectrum_image_xdata, ?_⟩
    split at h
    · cases h
    · split at h
      · cases h
      · split at h
        · cases h
        · simp only [background_model_loop_value,
            last_matching_eq_none bm.structure_type
              (get_components_by_type registry "background-model") hnm,
            Option.map_none'] at h
          simp only [Except.ok.injEq, Prod.mk.injEq] at h
          obtain ⟨h1, h2⟩ := h
          subst h1
          exact ⟨rfl, rfl⟩

/-- When no registered background-model component matches, a successful
`EELSMapBackgroundSubtractedSignal.execute` buffers zeros over the navigation shape with the
navigation calibrations. -/
theorem map_execute_no_match
    {s : EELSMapBackgroundSubtractedSignal} {registry : List RegistryEntry} {d : DataItem}
    {bm : DataStructure} {gs : List Graphic} {sg : Graphic} {esd : Option DataItem}
    {s' : EELSMapBackgroundSubtractedSignal} {log : List Nat}
    (hnm : ∀ c ∈ get_components_by_type registry "background-model",
      c.background_model_id ≠ bm.structure_type)
    (h : s.execute registry d bm gs sg esd = .ok (s', log)) :
    ∃ spectrum_image_xdata,
      d.xdata = some spectrum_image_xdata ∧
      s'.mapped_xdata = some (new_data_and_metadata
        spectrum_image_xdata.navigation_dimension_shape
        (zeros_data spectrum_image_xdata.navigation_dimension_shape)
        default_calibration
        spectrum_image_xdata.navigation_dimensional_calibrations) := by
  cases hx : d.xdata with
  | none => simp only [EELSMapBackgroundSubtractedSignal.execute, hx] at h; cases h
  | some spectrum_image_xdata =>
    simp only [EELSMapBackgroundSubtractedSignal.execute, hx] at h
    refine ⟨spectrum_image_xdata, ?_⟩
    split at h
    · cases h
    · split at h
      · cases h
      · split at h
        · cases h
        · split at h
          · cases h
          · simp only [background_model_loop_value,
              last_matching_eq_none bm.structure_type
                (get_components_by_type registry "background-model") hnm,
              Option.map_none'] at h
            simp only [Except.ok.injEq, Prod.mk.injEq] at h
            obtain ⟨h1, h2⟩ := h
            subst h1
            exact ⟨rfl, rfl⟩

/-- C8: `normalized_interval` returns the pair (min, max) of its two components; hence its
first component is at most its second, it is symmetric in the two components, and it is
idempotent. -/
theorem normalized_interval_spec (a b : ℚ) :
    normalized_interval (a, b) = (min a b, max a b) ∧
    (normalized_interval (a, b)).1 ≤ (normalized_interval (a, b)).2 ∧
    normalized_interval (a, b) = normalized_interval (b, a) ∧
    normalized_interval (normalized_interval (a, b)) = normalized_interval (a, b) := by
  refine ⟨rfl, min_le_max, ?_, ?_⟩
  · simp [normalized_interval, min_comm, max_comm]
  · simp only [normalized_interval]
    exact Prod.ext (min_eq_left min_le_max) (max_eq_right min_le_max)

/-- C3: `component_registered` registers exactly one new schema entity — entity id equal to the
component's `background_model_id`, with parent `BackgroundModelEntity` — precisely when
"background-model" is among the given component types, and otherwise registers nothing. -/
theorem component_registered_spec (component : Component) (component_types : List String)
    (registered : List EntityRegistration) :
    component_registered component component_types registered
      = (if "background-model" ∈ component_types then
          registered ++ [{ entity := { entity_id := component.background_model_id,
                                       parent := some BackgroundModelEntity.entity_id },
                           entity_name := component.title,
                           entity_package_name := component.package_title }]
        else registered) ∧
    (component_registered component component_types registered ≠ registered ↔
      "background-model" ∈ component_types) := by
  constructor
  · by_cases hm : "background-model" ∈ component_types
    · rw [if_pos hm, component_registered, if_pos (by simpa [List.elem_iff] using hm)]
    · rw [if_neg hm, component_registered, if_neg (by simpa [List.elem_iff] using hm)]
  · by_cases hm : "background-model" ∈ component_types
    · rw [component_registered, if_pos (by simpa [List.elem_iff] using hm)]
      simp [hm]
    · rw [component_registered, if_neg (by simpa [List.elem_iff] using hm)]
      simp [hm]

/-- C4: module load registers exactly the three computation types, in source order, mapping
"eels.background_subtraction3" to `EELSFitBackground`, "eels.mapping3" to
`EELSMapBackgroundSubtractedSignal`, and "eels.subtract_background" to
`EELSSubtractBackground`; each registered kind dispatches to that class's `execute` and
`commit` methods. -/
theorem module_computation_type_registrations_spec :
    module_computation_type_registrations
      = [("eels.background_subtraction3", HandlerKind.fitBackground),
         ("eels.mapping3", HandlerKind.mapBackgroundSubtractedSignal),
         ("eels.subtract_background", HandlerKind.subtractBackground)] ∧
    (∀ s, HandlerKind.fitBackground.run_commit (HandlerState.fit s)
        = (EELSFitBackground.commit s).map HandlerState.fit) ∧
    (∀ s, HandlerKind.mapBackgroundSubtractedSignal.run_commit (HandlerState.mapSig s)
        = (EELSMapBackgroundSubtractedSignal.commit s).map HandlerState.mapSig) ∧
    (∀ s, HandlerKind.subtractBackground.run_commit (HandlerState.sub s)
        = (EELSSubtractBackground.commit s).map HandlerState.sub) ∧
    (∀ s registry d bm gs,
      HandlerKind.fitBackground.run_execute (HandlerState.fit s) registry
          { eels_spectrum_data_item := some d, spectrum_image_data_item := none,
            background_model := some bm, fit_interval_graphics := some gs,
            signal_interval_graphic := none }
        = (s.execute registry d bm gs).map (fun r => (HandlerState.fit r.1, r.2))) ∧
    (∀ s registry d bm gs sg esd,
      HandlerKind.mapBackgroundSubtractedSignal.run_execute (HandlerState.mapSig s) registry
          { eels_spectrum_data_item := esd, spectrum_image_data_item := some d,
            background_model := some bm, fit_interval_graphics := some gs,
            signal_interval_graphic := some sg }
        = (s.execute registry d bm gs sg esd).map (fun r => (HandlerState.mapSig r.1, r.2))) ∧
    (∀ s registry d bm gs,
      HandlerKind.subtractBackground.run_execute (HandlerState.sub s) registry
          { eels_spectrum_data_item := none, spectrum_image_data_item := some d,
            background_model := some bm, fit_interval_graphics := some gs,
            signal_interval_graphic := none }
        = (s.execute registry d bm gs).map (fun r => (HandlerState.sub r.1, r.2))) :=
  ⟨rfl, fun _ => rfl, fun _ => rfl, fun _ => rfl, fun _ _ _ _ _ => rfl,
    fun _ _ _ _ _ _ _ => rfl, fun _ _ _ _ _ => rfl⟩

/-- C7: `build_menus` adds exactly the seven menu items of `UI.py`, in source order, each
paired with its processing action (the two elemental maps carrying their respective energy
ranges), and the module-import registration installs `build_menus` exactly when the host
imports succeeded and an application object exists. -/
theorem build_menus_spec (processing_menu : List (String × MenuAction)) :
    build_menus processing_menu = processing_menu ++
      [("Subtract Linear Background", MenuAction.subtractLinearBackground),
       ("Subtract Background Signal", MenuAction.subtractBackgroundSignal),
       ("Extract Signal", MenuAction.extractSignal),
       ("Show Color Channels", MenuAction.showColorChannels),
       ("Filter Channel", MenuAction.filterChannel),
       ("Elemental Map (Si K)", MenuAction.filterElement (1700, 1800) (1839, 2039)),
       ("Elemental Map (Ga L)", MenuAction.filterElement (1100, 1200) (1220, 1420))] ∧
    (build_menus processing_menu).length = processing_menu.length + 7 ∧
    (∀ ok app, ui_module_menu_handler_registration ok app
        = if ok && app then [MenuHandler.buildMenus] else []) ∧
    ui_module_menu_handler_registration false true = [] ∧
    ui_module_menu_handler_registration true false = [] ∧
    ui_module_menu_handler_registration false false = [] := by
  refine ⟨?_, ?_, fun _ _ => rfl, rfl, rfl, rfl⟩
  · simp [build_menus, add_menu_item]
  · simp [build_menus, add_menu_item]

/-- C1: for each of the three computation-handler classes, a successful `execute` leaves the
computation's referenced (published) output xdata exactly as it was — results go only into the
private buffers — and the subsequent `commit` publishes exactly the buffered values into the
output keys, leaving every other key's published value unchanged. (In this embedding an
exception carries no new state, so a failing `execute` cannot publish anything either.) -/
theorem execute_commit_split_spec :
    (∀ (s : EELSFitBackground) (registry : List RegistryEntry) (d : DataItem)
        (bm : DataStructure) (gs : List Graphic) (s' : EELSFitBackground) (log : List Nat),
        s.execute registry d bm gs = .ok (s', log) →
          s'.computation = s.computation ∧
          ∀ s'', s'.commit = .ok s'' →
            s''.computation.get_referenced_xdata "background" = s'.background_xdata ∧
            s''.computation.get_referenced_xdata "subtracted" = s'.subtracted_xdata ∧
            ∀ name, name ≠ "background" → name ≠ "subtracted" →
              s''.computation.get_referenced_xdata name
                = s'.computation.get_referenced_xdata name) ∧
    (∀ (s : EELSSubtractBackground) (registry : List RegistryEntry) (d : DataItem)
        (bm : DataStructure) (gs : List Graphic) (s' : EELSSubtractBackground)
        (log : List Nat),
        s.execute registry d bm gs = .ok (s', log) →
          s'.computation = s.computation ∧
          ∀ s'', s'.commit = .ok s'' →
            s''.computation.get_referenced_xdata "subtracted" = s'.subtracted_xdata ∧
            ∀ name, name ≠ "subtracted" →
              s''.computation.get_referenced_xdata name
                = s'.computation.get_referenced_xdata name) ∧
    (∀ (s : EELSMapBackgroundSubtractedSignal) (registry : List RegistryEntry) (d : DataItem)
        (bm : DataStructure) (gs : List Graphic) (sg : Graphic) (esd : Option DataItem)
        (s' : EELSMapBackgroundSubtractedSignal) (log : List Nat),
        s.execute registry d bm gs sg esd = .ok (s', log) →
          s'.computation = s.computation ∧
          ∀ s'', s'.commit = .ok s'' →
            s''.computation.get_referenced_xdata "map" = s'.mapped_xdata ∧
            ∀ name, name ≠ "map" →
              s''.computation.get_referenced_xdata name
                = s'.computation.get_referenced_xdata name) := by
  refine ⟨?_, ?_, ?_⟩
  · intro s registry d bm gs s' log h
    obtain ⟨hcomp, ⟨bg, hbg⟩, ⟨sub, hsub⟩, -⟩ := fit_execute_ok_shape h
    refine ⟨hcomp, ?_⟩
    intro s'' hc
    simp only [EELSFitBackground.commit, hbg, hsub, Except.ok.injEq] at hc
    subst hc
    refine ⟨?_, ?_, ?_⟩
    · show ((s'.computation.set_referenced_xdata "background" bg).set_referenced_xdata
          "subtracted" sub).get_referenced_xdata "background" = s'.background_xdata
      rw [Computation.get_set_other _ _ _ _ (by decide), Computation.get_set_same]
      exact hbg.symm
    · show ((s'.computation.set_referenced_xdata "background" bg).set_referenced_xdata
          "subtracted" sub).get_referenced_xdata "subtracted" = s'.subtracted_xdata
      rw [Computation.get_set_same]
      exact hsub.symm
    · intro name hn1 hn2
      show ((s'.computation.set_referenced_xdata "background" bg).set_referenced_xdata
          "subtracted" sub).get_referenced_xdata name
        = s'.computation.get_referenced_xdata name
      rw [Computation.get_set_other _ _ _ _ hn2, Computation.get_set_other _ _ _ _ hn1]
  · intro s registry d bm gs s' log h
    obtain ⟨hcomp, ⟨sub, hsub⟩, -⟩ := sub_execute_ok_shape h
    refine ⟨hcomp, ?_⟩
    intro s'' hc
    simp only [EELSSubtractBackground.commit, hsub, Except.ok.injEq] at hc
    subst hc
    refine ⟨?_, ?_⟩
    · show (s'.computation.set_referenced_xdata "subtracted" sub).get_referenced_xdata
          "subtracted" = s'.subtracted_xdata
      rw [Computation.get_set_same]
      exact hsub.symm
    · intro name hn
      show (s'.computation.set_referenced_xdata "subtracted" sub).get_referenced_xdata name
        = s'.computation.get_referenced_xdata name
      rw [Computation.get_set_other _ _ _ _ hn]
  · intro s registry d bm gs sg esd s' log h
    obtain ⟨hcomp, ⟨mapped, hm⟩, -⟩ := map_execute_ok_shape h
    refine ⟨hcomp, ?_⟩
    intro s'' hc
    simp only [EELSMapBackgroundSubtractedSignal.commit, hm, Except.ok.injEq] at hc
    subst hc
    refine ⟨?_, ?_⟩
    · show (s'.computation.set_referenced_xdata "map" mapped).get_referenced_xdata "map"
          = s'.mapped_xdata
      rw [Computation.get_set_same]
      exact hm.symm
    · intro name hn
      show (s'.computation.set_referenced_xdata "map" mapped).get_referenced_xdata name
        = s'.computation.get_referenced_xdata name
      rw [Computation.get_set_other _ _ _ _ hn]

/-- Witness for C1: concrete runs of all three handlers over the sample inputs, followed by
their commits; the published values equal the buffers. -/
theorem execute_commit_split_witness :
    fit_state0.execute mismatch_registry sample_spectrum_item sample_background_model
        [sample_graphic] = .ok (fit_state1, []) ∧
    fit_state1.commit = .ok fit_state2 ∧
    fit_state1.computation = fit_state0.computation ∧
    fit_state2.computation.get_referenced_xdata "background" = fit_state1.background_xdata ∧
    fit_state2.computation.get_referenced_xdata "subtracted" = fit_state1.subtracted_xdata ∧
    sub_state0.execute mismatch_registry sample_si_item sample_background_model
        [sample_graphic] = .ok (sub_state1, []) ∧
    sub_state1.commit = .ok sub_state2 ∧
    sub_state1.computation = sub_state0.computation ∧
    sub_state2.computation.get_referenced_xdata "subtracted" = sub_state1.subtracted_xdata ∧
    map_state0.execute mismatch_registry sample_si_item sample_background_model
        [sample_graphic] sample_signal_graphic none = .ok (map_state1, []) ∧
    map_state1.commit = .ok map_state2 ∧
    map_state1.computation = map_state0.computation ∧
    map_state2.computation.get_referenced_xdata "map" = map_state1.mapped_xdata := by
  have hfe : fit_state0.execute mismatch_registry sample_spectrum_item sample_background_model
      [sample_graphic] = .ok (fit_state1, []) := by rfl
  have hfc : fit_state1.commit = .ok fit_state2 := by rfl
  have hse : sub_state0.execute mismatch_registry sample_si_item sample_background_model
      [sample_graphic] = .ok (sub_state1, []) := by rfl
  have hsc : sub_state1.commit = .ok sub_state2 := by rfl
  have hme : map_state0.execute mismatch_registry sample_si_item sample_background_model
      [sample_graphic] sample_signal_graphic none = .ok (map_state1, []) := by rfl
  have hmc : map_state1.commit = .ok map_state2 := by rfl
  have hf := execute_commit_split_spec.1 fit_state0 mismatch_registry sample_spectrum_item
    sample_background_model [sample_graphic] fit_state1 [] hfe
  have hs := execute_commit_split_spec.2.1 sub_state0 mismatch_registry sample_si_item
    sample_background_model [sample_graphic] sub_state1 [] hse
  have hm := execute_commit_split_spec.2.2 map_state0 mismatch_registry sample_si_item
    sample_background_model [sample_graphic] sample_signal_graphic none map_state1 [] hme
  exact ⟨hfe, hfc, hf.1, (hf.2 fit_state2 hfc).1, (hf.2 fit_state2 hfc).2.1,
    hse, hsc, hs.1, (hs.2 sub_state2 hsc).1,
    hme, hmc, hm.1, (hm.2 map_state2 hmc).1⟩

/-- C2: for every successful `execute` of any of the three handler classes, the invoked
background-model components are exactly the registered "background-model" components whose
`background_model_id` equals the background-model structure's `structure_type`: the invocation
log lists precisely the matching registry positions, and a component at a position is invoked
iff its id matches. -/
theorem registry_dispatch_spec :
    (∀ (s : EELSFitBackground) (registry : List RegistryEntry) (d : DataItem)
        (bm : DataStructure) (gs : List Graphic) (s' : EELSFitBackground) (log : List Nat),
        s.execute registry d bm gs = .ok (s', log) →
          log = matching_indices_from bm.structure_type
            (get_components_by_type registry "background-model") 0 ∧
          ∀ j c, (get_components_by_type registry "background-model").get? j = some c →
            (j ∈ log ↔ c.background_model_id = bm.structure_type)) ∧
    (∀ (s : EELSSubtractBackground) (registry : List RegistryEntry) (d : DataItem)
        (bm : DataStructure) (gs : List Graphic) (s' : EELSSubtractBackground)
        (log : List Nat),
        s.execute registry d bm gs = .ok (s', log) →
          log = matching_indices_from bm.structure_type
            (get_components_by_type registry "background-model") 0 ∧
          ∀ j c, (get_components_by_type registry "background-model").get? j = some c →
            (j ∈ log ↔ c.background_model_id = bm.structure_type)) ∧
    (∀ (s : EELSMapBackgroundSubtractedSignal) (registry : List RegistryEntry) (d : DataItem)
        (bm : DataStructure) (gs : List Graphic) (sg : Graphic) (esd : Option DataItem)
        (s' : EELSMapBackgroundSubtractedSignal) (log : List Nat),
        s.execute registry d bm gs sg esd = .ok (s', log) →
          log = matching_indices_from bm.structure_type
            (get_components_by_type registry "background-model") 0 ∧
          ∀ j c, (get_components_by_type registry "background-model").get? j = some c →
            (j ∈ log ↔ c.background_model_id = bm.structure_type)) := by
  have key : ∀ (bmid : String) (comps : List Component) (log : List Nat),
      log = matching_indices_from bmid comps 0 →
      ∀ j c, comps.get? j = some c → (j ∈ log ↔ c.background_model_id = bmid) := by
    intro bmid comps log hlog j c hget
    subst hlog
    have hmem := matching_indices_from_mem bmid comps 0 j
    rw [Nat.zero_add] at hmem
    constructor
    · intro hj
      obtain ⟨c', hget', hc'⟩ := hmem.mp hj
      rw [hget] at hget'
      cases hget'
      exact hc'
    · intro hc
      exact hmem.mpr ⟨c, hget, hc⟩
  refine ⟨?_, ?_, ?_⟩
  · intro s registry d bm gs s' log h
    obtain ⟨-, -, -, hlog⟩ := fit_execute_ok_shape h
    exact ⟨hlog, key _ _ _ hlog⟩
  · intro s registry d bm gs s' log h
    obtain ⟨-, -, hlog⟩ := sub_execute_ok_shape h
    exact ⟨hlog, key _ _ _ hlog⟩
  · intro s registry d bm gs sg esd s' log h
    obtain ⟨-, -, hlog⟩ := map_execute_ok_shape h
    exact ⟨hlog, key _ _ _ hlog⟩

/-- Witness for C2: a run over a registry holding one non-matching and one matching component
invokes exactly the matching one (position 1). -/
theorem registry_dispatch_witness :
    fit_state0.execute sample_registry sample_spectrum_item sample_background_model
        [sample_graphic] = .ok (fit_state_matched, [1]) ∧
    ([1] : List Nat) = matching_indices_from sample_background_model.structure_type
      (get_components_by_type sample_registry "background-model") 0 ∧
    (1 ∈ ([1] : List Nat) ↔ sample_component.background_model_id
      = sample_background_model.structure_type) ∧
    (0 ∈ ([1] : List Nat) ↔ other_component.background_model_id
      = sample_background_model.structure_type) := by
  have hexec : fit_state0.execute sample_registry sample_spectrum_item sample_background_model
      [sample_graphic] = .ok (fit_state_matched, [1]) := by rfl
  have h := registry_dispatch_spec.1 fit_state0 sample_registry sample_spectrum_item
    sample_background_model [sample_graphic] fit_state_matched [1] hexec
  exact ⟨hexec, h.1, h.2 1 sample_component (by rfl), h.2 0 other_component (by rfl)⟩

/-- C9: when no registered "background-model" component's id matches the background-model
structure type, the handlers fall back to defaults instead of failing: `EELSFitBackground`
buffers an all-zero background of the signal slice's shape with the slice's calibrations and a
subtracted result equal to the slice's data, while `EELSSubtractBackground` and
`EELSMapBackgroundSubtractedSignal` buffer zeros of the spectrum image's navigation shape with
its navigation calibrations. -/
theorem no_matching_component_defaults_spec :
    (∀ (s : EELSFitBackground) (registry : List RegistryEntry) (d : DataItem)
        (bm : DataStructure) (gs : List Graphic) (s' : EELSFitBackground) (log : List Nat)
        (spectrum_xdata : DataAndMetadata) (fit_minimum : ℚ),
        (∀ c ∈ get_components_by_type registry "background-model",
          c.background_model_id ≠ bm.structure_type) →
        d.xdata = some spectrum_xdata →
        ((gs.map (fun g => normalized_interval g.interval)).map (fun p => p.1)).min?
          = some fit_minimum →
        s.execute registry d bm gs = .ok (s', log) →
          s'.background_xdata = some (new_data_and_metadata
            (get_calibrated_interval_slice spectrum_xdata (fit_minimum, 1)).shape
            (zeros_like (get_calibrated_interval_slice spectrum_xdata (fit_minimum, 1)).data)
            (get_calibrated_interval_slice spectrum_xdata
              (fit_minimum, 1)).intensity_calibration
            (get_calibrated_interval_slice spectrum_xdata
              (fit_minimum, 1)).dimensional_calibrations) ∧
          s'.subtracted_xdata = some (new_data_and_metadata
            (get_calibrated_interval_slice spectrum_xdata (fit_minimum, 1)).shape
            (get_calibrated_interval_slice spectrum_xdata (fit_minimum, 1)).data
            (get_calibrated_interval_slice spectrum_xdata
              (fit_minimum, 1)).intensity_calibration
            (get_calibrated_interval_slice spectrum_xdata
              (fit_minimum, 1)).dimensional_calibrations)) ∧
    (∀ (s : EELSSubtractBackground) (registry : List RegistryEntry) (d : DataItem)
        (bm : DataStructure) (gs : List Graphic) (s' : EELSSubtractBackground)
        (log : List Nat) (spectrum_image_xdata : DataAndMetadata),
        (∀ c ∈ get_components_by_type registry "background-model",
          c.background_model_id ≠ bm.structure_type) →
        d.xdata = some spectrum_image_xdata →
        s.execute registry d bm gs = .ok (s', log) →
          s'.subtracted_xdata = some (new_data_and_metadata
            spectrum_image_xdata.navigation_dimension_shape
            (zeros_data spectrum_image_xdata.navigation_dimension_shape)
            default_calibration
            spectrum_image_xdata.navigation_dimensional_calibrations)) ∧
    (∀ (s : EELSMapBackgroundSubtractedSignal) (registry : List RegistryEntry) (d : DataItem)
        (bm : DataStructure) (gs : List Graphic) (sg : Graphic) (esd : Option DataItem)
        (s' : EELSMapBackgroundSubtractedSignal) (log : List Nat)
        (spectrum_image_xdata : DataAndMetadata),
        (∀ c ∈ get_components_by_type registry "background-model",
          c.background_model_id ≠ bm.structure_type) →
        d.xdata = some spectrum_image_xdata →
        s.execute registry d bm gs sg esd = .ok (s', log) →
          s'.mapped_xdata = some (new_data_and_metadata
            spectrum_image_xdata.navigation_dimension_shape
            (zeros_data spectrum_image_xdata.navigation_dimension_shape)
            default_calibration
            spectrum_image_xdata.navigation_dimensional_calibrations)) := by
  refine ⟨?_, ?_, ?_⟩
  · intro s registry d bm gs s' log spectrum_xdata fit_minimum hnm hx hmin h
    obtain ⟨sx, fm, hx', hmin', hbg, hsub⟩ := fit_execute_no_match hnm h
    rw [hx] at hx'
    cases hx'
    rw [hmin] at hmin'
    cases hmin'
    exact ⟨hbg, hsub⟩
  · intro s registry d bm gs s' log spectrum_image_xdata hnm hx h
    obtain ⟨sx, hx', hsub⟩ := sub_execute_no_match hnm h
    rw [hx] at hx'
    cases hx'
    exact hsub
  · intro s registry d bm gs sg esd s' log spectrum_image_xdata hnm hx h
    obtain ⟨sx, hx', hm⟩ := map_execute_no_match hnm h
    rw [hx] at hx'
    cases hx'
    exact hm

/-- Witness for C9: concrete no-match runs of all three handlers against a registry whose only
background-model component has a different id; the buffered defaults are as claimed. -/
theorem no_matching_component_defaults_witness :
    (get_components_by_type mismatch_registry "background-model").all
        (fun c => c.background_model_id != sample_background_model.structure_type) = true ∧
    fit_state1.background_xdata = some (new_data_and_metadata
      (get_calibrated_interval_slice sample_spectrum_xdata (mkRat 1 4, 1)).shape
      (zeros_like (get_calibrated_interval_slice sample_spectrum_xdata (mkRat 1 4, 1)).data)
      (get_calibrated_interval_slice sample_spectrum_xdata (mkRat 1 4, 1)).intensity_calibration
      (get_calibrated_interval_slice sample_spectrum_xdata
        (mkRat 1 4, 1)).dimensional_calibrations) ∧
    fit_state1.subtracted_xdata = some (new_data_and_metadata
      (get_calibrated_interval_slice sample_spectrum_xdata (mkRat 1 4, 1)).shape
      (get_calibrated_interval_slice sample_spectrum_xdata (mkRat 1 4, 1)).data
      (get_calibrated_interval_slice sample_spectrum_xdata (mkRat 1 4, 1)).intensity_calibration
      (get_calibrated_interval_slice sample_spectrum_xdata
        (mkRat 1 4, 1)).dimensional_calibrations) ∧
    sub_state1.subtracted_xdata = some (new_data_and_metadata
      sample_si_xdata.navigation_dimension_shape
      (zeros_data sample_si_xdata.navigation_dimension_shape)
      default_calibration sample_si_xdata.navigation_dimensional_calibrations) ∧
    map_state1.mapped_xdata = some (new_data_and_metadata
      sample_si_xdata.navigation_dimension_shape
      (zeros_data sample_si_xdata.navigation_dimension_shape)
      default_calibration sample_si_xdata.navigation_dimensional_calibrations) := by
  have hnm : ∀ c ∈ get_components_by_type mismatch_registry "background-model",
      c.background_model_id ≠ sample_background_model.structure_type := by decide
  have h1 := no_matching_component_defaults_spec.1 fit_state0 mismatch_registry
    sample_spectrum_item sample_background_model [sample_graphic] fit_state1 []
    sample_spectrum_xdata (mkRat 1 4) hnm rfl (by decide) (by rfl)
  have h2 := no_matching_component_defaults_spec.2.1 sub_state0 mismatch_registry
    sample_si_item sample_background_model [sample_graphic] sub_state1 []
    sample_si_xdata hnm rfl (by rfl)
  have h3 := no_matching_component_defaults_spec.2.2 map_state0 mismatch_registry
    sample_si_item sample_background_model [sample_graphic] sample_signal_graphic none
    map_state1 [] sample_si_xdata hnm rfl (by rfl)
  exact ⟨by decide, h1.1, h1.2, h2, h3⟩

/-- Under the eV-spectrum precondition with at least one fit-interval graphic,
`EELSFitBackground.execute` never raises. -/
theorem EELSFitBackground.execute_no_error {s : EELSFitBackground}
    {registry : List RegistryEntry} {d : DataItem} {bm : DataStructure} {gs : List Graphic}
    {spectrum_xdata : DataAndMetadata} (hx : d.xdata = some spectrum_xdata)
    (h1 : spectrum_xdata.is_datum_1d = true)
    (h2 : spectrum_xdata.datum_dimensional_calibrations.head?.map Calibration.units
      = some "eV")
    (hgs : gs ≠ []) (e : ExecError) :
    s.execute registry d bm gs ≠ .error e := by
  intro h
  simp only [EELSFitBackground.execute, hx] at h
  split at h
  · rename_i hcond
    rw [h1] at hcond
    simp at hcond
  · split at h
    · rename_i hcond1 hcond2
      exact hcond2 h2
    · split at h
      · rename_i hmin
        rw [List.min?_eq_none_iff] at hmin
        simp at hmin
        exact hgs hmin
      · cases h

/-- C10: `EELSFitBackground.execute` raises an assertion error whenever the spectrum input's
xdata is missing, is not one-dimensional datum data, or its datum calibration units are not
"eV"; in this embedding a raise returns no new state, so the private buffers are untouched.
Under the precondition that all three conditions hold and at least one fit-interval graphic is
present (so the signal slice can be taken), no error is raised and both buffers are
assigned. -/
theorem eels_fit_background_assert_spec :
    (∀ (s : EELSFitBackground) (registry : List RegistryEntry) (d : DataItem)
        (bm : DataStructure) (gs : List Graphic),
        d.xdata = none → s.execute registry d bm gs = .error .assertionError) ∧
    (∀ (s : EELSFitBackground) (registry : List RegistryEntry) (d : DataItem)
        (bm : DataStructure) (gs : List Graphic) (x : DataAndMetadata),
        d.xdata = some x → x.is_datum_1d = false →
        s.execute registry d bm gs = .error .assertionError) ∧
    (∀ (s : EELSFitBackground) (registry : List RegistryEntry) (d : DataItem)
        (bm : DataStructure) (gs : List Graphic) (x : DataAndMetadata),
        d.xdata = some x →
        x.datum_dimensional_calibrations.head?.map Calibration.units ≠ some "eV" →
        s.execute registry d bm gs = .error .assertionError) ∧
    (∀ (s : EELSFitBackground) (registry : List RegistryEntry) (d : DataItem)
        (bm : DataStructure) (gs : List Graphic) (x : DataAndMetadata),
        d.xdata = some x → x.is_datum_1d = true →
        x.datum_dimensional_calibrations.head?.map Calibration.units = some "eV" →
        gs ≠ [] →
        (∀ e, s.execute registry d bm gs ≠ .error e) ∧
        (∀ s' log, s.execute registry d bm gs = .ok (s', log) →
          (∃ bg, s'.background_xdata = some bg) ∧
          (∃ sub, s'.subtracted_xdata = some sub))) := by
  refine ⟨?_, ?_, ?_, ?_⟩
  · intro s registry d bm gs hx
    simp [EELSFitBackground.execute, hx]
  · intro s registry d bm gs x hx hdat
    simp [EELSFitBackground.execute, hx, hdat]
  · intro s registry d bm gs x hx hu
    cases hdat : x.is_datum_1d with
    | false => simp [EELSFitBackground.execute, hx, hdat]
    | true => simp [EELSFitBackground.execute, hx, hdat, hu]
  · intro s registry d bm gs x hx hdat hu hgs
    refine ⟨fun e => EELSFitBackground.execute_no_error hx hdat hu hgs e, ?_⟩
    intro s' log h
    obtain ⟨-, hbg, hsub, -⟩ := fit_execute_ok_shape h
    exact ⟨hbg, hsub⟩

/-- Witness for C10: the three assertion conditions fail on concrete bad inputs; on the good
sample input no error is raised. -/
theorem eels_fit_background_assert_witness :
    no_xdata_item.xdata = none ∧
    fit_state0.execute [] no_xdata_item sample_background_model [sample_graphic]
      = .error .assertionError ∧
    bad_2d_xdata.is_datum_1d = false ∧
    fit_state0.execute [] bad_2d_item sample_background_model [sample_graphic]
      = .error .assertionError ∧
    bad_units_xdata.datum_dimensional_calibrations.head?.map Calibration.units ≠ some "eV" ∧
    fit_state0.execute [] bad_units_item sample_background_model [sample_graphic]
      = .error .assertionError ∧
    sample_spectrum_xdata.is_datum_1d = true ∧
    sample_spectrum_xdata.datum_dimensional_calibrations.head?.map Calibration.units
      = some "eV" ∧
    ([sample_graphic] : List Graphic) ≠ [] ∧
    fit_state0.execute mismatch_registry sample_spectrum_item sample_background_model
      [sample_graphic] ≠ .error .assertionError := by
  refine ⟨rfl, ?_, by decide, ?_, by decide, ?_, by decide, by decide, by simp, ?_⟩
  · exact eels_fit_background_assert_spec.1 fit_state0 [] no_xdata_item
      sample_background_model [sample_graphic] rfl
  · exact eels_fit_background_assert_spec.2.1 fit_state0 [] bad_2d_item
      sample_background_model [sample_graphic] bad_2d_xdata rfl (by decide)
  · exact eels_fit_background_assert_spec.2.2.1 fit_state0 [] bad_units_item
      sample_background_model [sample_graphic] bad_units_xdata rfl (by decide)
  · exact (eels_fit_background_assert_spec.2.2.2 fit_state0 mismatch_registry
      sample_spectrum_item sample_background_model [sample_graphic] sample_spectrum_xdata
      rfl (by decide) (by decide) (by simp)).1 ExecError.assertionError

/-- `List.find?` returns the first satisfying element: everything before it fails the
predicate. -/
theorem find?_first {α : Type} (p : α → Bool) :
    ∀ (l : List α) (a : α), l.find? p = some a →
      ∃ pre post, l = pre ++ a :: post ∧ (∀ x ∈ pre, p x = false) ∧ p a = true := by
  intro l
  induction l with
  | nil => intro a h; simp [List.find?] at h
  | cons b l ih =>
    intro a h
    cases hb : p b with
    | true =>
      simp only [List.find?_cons, hb] at h
      cases h
      exact ⟨[], l, rfl, by simp, hb⟩
    | false =>
      simp only [List.find?_cons, hb] at h
      obtain ⟨pre, post, heq, hpre, hpa⟩ := ih a h
      refine ⟨b :: pre, post, by rw [heq, List.cons_append], ?_, hpa⟩
      intro x hx
      rcases List.mem_cons.mp hx with rfl | hx'
      · exact hb
      · exact hpre x hx'

/-- C6: `add_background_subtraction_computation` appends a power-law background-model data
structure, creates an "eels.background_subtraction3" computation wiring the given data item,
that structure, and the interval graphics to two newly created output items ("background" and
"subtracted"), and sets every passed interval graphic's `graphic_id` to "background";
`subtract_background_from_signal` performs this only when the window has a target display, a
target data item, and at least one selected interval graphic. -/
theorem add_background_subtraction_computation_spec :
    (∀ (m : DocumentModel) (display : Display) (data_item : DataItem)
        (intervals : List Graphic),
        (add_background_subtraction_computation m display data_item intervals).1.data_structures
          = m.data_structures ++
            [{ structure_type := "power_law_fit_background_model",
               source := some m.next_id }] ∧
        (add_background_subtraction_computation m display data_item intervals).1.computations
          = m.computations ++
            [{ processing_id := "eels.background_subtraction3",
               inputs := [("eels_spectrum_data_item", InputValue.dataItem data_item),
                          ("background_model", InputValue.dataStructure
                            { structure_type := "power_law_fit_background_model",
                              source := some m.next_id }),
                          ("fit_interval_graphics", InputValue.graphicList
                            (intervals.map relabel_background))],
               outputs := [("background", { id := m.next_id, xdata := none }),
                           ("subtracted", { id := m.next_id + 1, xdata := none })] }] ∧
        (add_background_subtraction_computation m display data_item intervals).1.data_items
          = m.data_items ++ [{ id := m.next_id, xdata := none },
              { id := m.next_id + 1, xdata := none }] ∧
        (add_background_subtraction_computation m display data_item intervals).2.1
          = intervals.map relabel_background ∧
        (∀ g ∈ (add_background_subtraction_computation m display data_item intervals).2.1,
          g.graphic_id = "background")) ∧
    (∀ m w, w.target_display = none →
      subtract_background_from_signal m w = (m, [], w.target_display)) ∧
    (∀ m w, w.target_data_item = none →
      subtract_background_from_signal m w = (m, [], w.target_display)) ∧
    (∀ m w disp item, w.target_display = some disp → w.target_data_item = some item →
      disp.selected_graphics.filter (fun g => g.graphic_type == "interval-graphic") = [] →
      subtract_background_from_signal m w = (m, [], some disp)) ∧
    (∀ m w disp item, w.target_display = some disp → w.target_data_item = some item →
      disp.selected_graphics.filter (fun g => g.graphic_type == "interval-graphic") ≠ [] →
      subtract_background_from_signal m w
        = ((add_background_subtraction_computation m disp item
              (disp.selected_graphics.filter
                (fun g => g.graphic_type == "interval-graphic"))).1,
           (add_background_subtraction_computation m disp item
              (disp.selected_graphics.filter
                (fun g => g.graphic_type == "interval-graphic"))).2.1,
           some (add_background_subtraction_computation m disp item
              (disp.selected_graphics.filter
                (fun g => g.graphic_type == "interval-graphic"))).2.2)) := by
  refine ⟨?_, ?_, ?_, ?_, ?_⟩
  · intro m display data_item intervals
    refine ⟨rfl, rfl, ?_, rfl, ?_⟩
    · simp [add_background_subtraction_computation, DocumentModel.create_data_item,
        DocumentModel.create_computation]
    · intro g hg
      simp only [add_background_subtraction_computation] at hg
      obtain ⟨g0, -, hg0⟩ := List.mem_map.mp hg
      rw [← hg0]
      rfl
  · intro m w h
    cases hti : w.target_data_item with
    | none => simp [subtract_background_from_signal, h, hti]
    | some item => simp [subtract_background_from_signal, h, hti]
  · intro m w h
    cases htd : w.target_display with
    | none => simp [subtract_background_from_signal, h, htd]
    | some disp => simp [subtract_background_from_signal, h, htd]
  · intro m w disp item hdisp hitem hempty
    simp [subtract_background_from_signal, hdisp, hitem, List.isEmpty_iff, hempty]
  · intro m w disp item hdisp hitem hne
    simp only [subtract_background_from_signal, hdisp, hitem]
    rw [if_neg (by simpa [List.isEmpty_iff] using hne)]

/-- Witness for C6: running the subtract-background-from-signal action on the sample window
appends the power-law structure and the background-subtraction computation, creating items 4
and 5, and relabels the selected interval graphic. -/
theorem add_background_subtraction_computation_witness :
    sample_window.target_display = some sample_display ∧
    sample_window.target_data_item = some sample_spectrum_item ∧
    sample_display.selected_graphics.filter (fun g => g.graphic_type == "interval-graphic")
      ≠ [] ∧
    (subtract_background_from_signal sample_document_model sample_window).1.data_structures
      = sample_document_model.data_structures ++
        [{ structure_type := "power_law_fit_background_model", source := some 4 }] ∧
    (subtract_background_from_signal sample_document_model sample_window).1.computations
      = sample_document_model.computations ++
        [{ processing_id := "eels.background_subtraction3",
           inputs := [("eels_spectrum_data_item", InputValue.dataItem sample_spectrum_item),
                      ("background_model", InputValue.dataStructure
                        { structure_type := "power_law_fit_background_model",
                          source := some 4 }),
                      ("fit_interval_graphics", InputValue.graphicList [sample_graphic_bg])],
           outputs := [("background", { id := 4, xdata := none }),
                       ("subtracted", { id := 5, xdata := none })] }] ∧
    (subtract_background_from_signal sample_document_model sample_window).2.1
      = [sample_graphic_bg] ∧
    sample_graphic_bg.graphic_id = "background" := by
  have h5 := add_background_subtraction_computation_spec.2.2.2.2 sample_document_model
    sample_window sample_display sample_spectrum_item rfl rfl (by decide)
  refine ⟨rfl, rfl, by decide, ?_, ?_, ?_, rfl⟩
  · rw [h5]; rfl
  · rw [h5]; rfl
  · rw [h5]; rfl

/-- A list of length one whose head is `a` is `[a]`. -/
theorem length_one_head_eq {α : Type} {l : List α} {a : α} (hlen : l.length = 1)
    (hhead : l.head? = some a) : l = [a] := by
  cases l with
  | nil => cases hhead
  | cons b bs =>
    cases bs with
    | nil =>
      simp only [List.head?_cons, Option.some.injEq] at hhead
      rw [hhead]
    | cons c cs => simp at hlen

/-- C5: the `subtract_background` menu action creates a new "eels.subtract_background"
computation — reusing the found computation's spectrum source, fit-interval graphics and
background model, with a fresh zero-filled output item of the source's navigation shape,
which is then displayed — exactly when the window has a target display in which the first (in
document order) "eels.background_subtraction3" computation with both its
`eels_spectrum_data_item` input and its `subtracted` output among the display's items exists,
and that spectrum item has exactly one source data item, navigable with one datum dimension.
In every other case, including an exception (which carries no new state), the document model
gains no new computation. -/
theorem subtract_background_spec (m : DocumentModel) (w : DocumentWindow) :
    (w.target_display = none → subtract_background m w = .ok (m, w)) ∧
    (∀ disp, w.target_display = some disp →
      find_background_subtraction_computation m.computations disp.data_items = none →
      subtract_background m w = .ok (m, w)) ∧
    (∀ disp c, w.target_display = some disp →
      find_background_subtraction_computation m.computations disp.data_items = some c →
      ∃ pre post, m.computations = pre ++ c :: post ∧
        (∀ c' ∈ pre, is_target_bs3_computation disp.data_items c' = false) ∧
        is_target_bs3_computation disp.data_items c = true) ∧
    (∀ disp c spec gs bm src x,
      w.target_display = some disp →
      find_background_subtraction_computation m.computations disp.data_items = some c →
      c.input_data_item "eels_spectrum_data_item" = some spec →
      c.input_graphics "fit_interval_graphics" = some gs →
      c.input_structure "background_model" = some bm →
      m.get_source_data_items spec = [src] →
      src.xdata = some x →
      x.is_navigable = true →
      src.datum_dimension_count = 1 →
      subtract_background m w = .ok
        (((m.create_data_item_from_data x.navigation_dimension_shape
            (zeros_data x.navigation_dimension_shape)).2.create_computation
            "eels.subtract_background"
            [("spectrum_image_data_item", InputValue.dataItem src),
             ("fit_interval_graphics", InputValue.graphicList gs),
             ("background_model", InputValue.dataStructure bm)]
            [("subtracted", (m.create_data_item_from_data x.navigation_dimension_shape
                (zeros_data x.navigation_dimension_shape)).1)]),
         { w with displayed_items := w.displayed_items ++
            [(m.create_data_item_from_data x.navigation_dimension_shape
                (zeros_data x.navigation_dimension_shape)).1] })) ∧
    (∀ m' w', subtract_background m w = .ok (m', w') →
      (m' = m ∧ w' = w) ∨
      (∃ disp c spec gs bm src x,
        w.target_display = some disp ∧
        find_background_subtraction_computation m.computations disp.data_items = some c ∧
        c.input_data_item "eels_spectrum_data_item" = some spec ∧
        c.input_graphics "fit_interval_graphics" = some gs ∧
        c.input_structure "background_model" = some bm ∧
        m.get_source_data_items spec = [src] ∧
        src.xdata = some x ∧ x.is_navigable = true ∧ src.datum_dimension_count = 1 ∧
        m'.computations = m.computations ++
          [{ processing_id := "eels.subtract_background",
             inputs := [("spectrum_image_data_item", InputValue.dataItem src),
                        ("fit_interval_graphics", InputValue.graphicList gs),
                        ("background_model", InputValue.dataStructure bm)],
             outputs := [("subtracted", fresh_zero_item m x)] }] ∧
        w'.displayed_items = w.displayed_items ++ [fresh_zero_item m x])) := by
  refine ⟨?_, ?_, ?_, ?_, ?_⟩
  · intro h
    simp [subtract_background, h]
  · intro disp hdisp hfind
    simp [subtract_background, hdisp, hfind]
  · intro disp c hdisp hfind
    simp only [find_background_subtraction_computation] at hfind
    exact find?_first _ m.computations c hfind
  · intro disp c spec gs bm src x hdisp hfind hspec hgs hbm hsrc hx hnav hddc
    simp [subtract_background, hdisp, hfind, hspec, hgs, hbm, hsrc, hx, hnav, hddc]
  · intro m' w' h
    cases hdisp : w.target_display with
    | none =>
      simp only [subtract_background, hdisp, Except.ok.injEq, Prod.mk.injEq] at h
      exact Or.inl ⟨h.1.symm, h.2.symm⟩
    | some disp =>
      cases hfind : find_background_subtraction_computation m.computations disp.data_items with
      | none =>
        simp only [subtract_background, hdisp, hfind, Except.ok.injEq, Prod.mk.injEq] at h
        exact Or.inl ⟨h.1.symm, h.2.symm⟩
      | some c =>
        cases hspec : c.input_data_item "eels_spectrum_data_item" with
        | none =>
          simp only [subtract_background, hdisp, hfind, hspec] at h
          cases h
        | some spec =>
          cases hgs : c.input_graphics "fit_interval_graphics" with
          | none =>
            simp only [subtract_background, hdisp, hfind, hspec, hgs] at h
            cases h
          | some gs =>
            cases hbm : c.input_structure "background_model" with
            | none =>
              simp only [subtract_background, hdisp, hfind, hspec, hgs, hbm] at h
              cases h
            | some bm =>
              simp only [subtract_background, hdisp, hfind, hspec, hgs, hbm] at h
              cases hlen : (m.get_source_data_items spec).length == 1 with
              | false =>
                simp only [hlen, Bool.false_eq_true, if_false, Except.ok.injEq,
                  Prod.mk.injEq] at h
                exact Or.inl ⟨h.1.symm, h.2.symm⟩
              | true =>
                cases hhead : (m.get_source_data_items spec).head? with
                | none =>
                  simp only [hlen, if_true, hhead, Except.ok.injEq, Prod.mk.injEq] at h
                  exact Or.inl ⟨h.1.symm, h.2.symm⟩
                | some src =>
                  cases hx : src.xdata with
                  | none =>
                    simp only [hlen, if_true, hhead, hx] at h
                    cases h
                  | some x =>
                    cases hcond : x.is_navigable && (src.datum_dimension_count == 1) with
                    | false =>
                      simp only [hlen, if_true, hhead, hx, hcond, Bool.false_eq_true,
                        if_false, Except.ok.injEq, Prod.mk.injEq] at h
                      exact Or.inl ⟨h.1.symm, h.2.symm⟩
                    | true =>
                      simp only [hlen, if_true, hhead, hx, hcond, Except.ok.injEq,
                        Prod.mk.injEq] at h
                      obtain ⟨hnav, hddc⟩ := Bool.and_eq_true_iff.mp hcond
                      have hsrc : m.get_source_data_items spec = [src] :=
                        length_one_head_eq (beq_iff_eq.mp hlen) hhead
                      refine Or.inr ⟨disp, c, spec, gs, bm, src, x, rfl, hfind, hspec, hgs,
                        hbm, hsrc, hx, hnav, beq_iff_eq.mp hddc, ?_, ?_⟩
                      · rw [← h.1]
                        rfl
                      · rw [← h.2]
                        rfl

/-- Witness for C5: on the sample document, the menu action finds the sample
background-subtraction computation through the target display, the spectrum has the spectrum
image as its single navigable source, and a fresh zero item plus an
"eels.subtract_background" computation are created and displayed. -/
theorem subtract_background_spec_witness :
    sample_window.target_display = some sample_display ∧
    find_background_subtraction_computation sample_document_model.computations
      sample_display.data_items = some sample_bs3_computation ∧
    sample_bs3_computation.input_data_item "eels_spectrum_data_item"
      = some sample_spectrum_item ∧
    sample_document_model.get_source_data_items sample_spectrum_item = [sample_si_item] ∧
    sample_si_item.xdata = some sample_si_xdata ∧
    sample_si_xdata.is_navigable = true ∧
    sample_si_item.datum_dimension_count = 1 ∧
    subtract_background sample_document_model sample_window
      = .ok (sample_model_after_subtract, sample_window_after_subtract) := by
  have h4 := (subtract_background_spec sample_document_model sample_window).2.2.2.1
    sample_display sample_bs3_computation sample_spectrum_item [sample_graphic]
    sample_background_model sample_si_item sample_si_xdata rfl (by rfl) rfl rfl rfl
    (by rfl) rfl (by decide) rfl
  refine ⟨rfl, by rfl, rfl, by rfl, rfl, by decide, rfl, ?_⟩
  rw [h4]
  rfl

end EELS






